import Mathlib

/-! # Result projection of power-grid-model (main_core/output.hpp)

A shallow embedding of `power_grid_model::main_core::output_result` and of
`detail::produce_output`, `detail::comp_base_sequence_cbegin` and
`detail::comp_sequence_offset`.

Conventions of the embedding.

* `Idx` is a signed 64-bit integer in the source; it is an `Int` here. No
  arithmetic is done on indices except iterator increments, so no wrap-around
  can occur.
* The template parameter `sym` is an explicit `Bool` argument; the per-unit
  value types `ComplexValue<sym>` and `RealValue<sym>` are type families over
  it. The scalar carriers (`double`, `std::complex<double>`) are type
  parameters `R` and `D`: the projection only moves such values around.
* A subscript outside its container is undefined behaviour in C++. The
  embedding makes it observable as the result `Err.out_of_range`.
* A C++ exception is the `Except.error` result; the destination buffer after
  the call is returned next to it, so that what was written before the throw
  stays visible.
* A component object is the record of the members `output.hpp` calls on it.
-/

namespace power_grid_model

/-- Measured terminal type of a power sensor. The ten enumerators are the ones
`output.hpp` names; `unlisted raw` stands for any other value of the underlying
integer type (the enumeration is declared in a header outside
the sources). -/
inductive MeasuredTerminalType where
  | branch_from
  | branch_to
  | source
  | shunt
  | load
  | generator
  | branch3_1
  | branch3_2
  | branch3_3
  | node
  | unlisted (raw : Int)
  deriving DecidableEq, Repr

/-- Failure results. `MissingCaseForEnumError method value` is the exception of
that name with its two constructor arguments. `out_of_range` marks a subscript
outside its container (undefined behaviour in the source). -/
inductive Err where
  | MissingCaseForEnumError (method : String) (value : MeasuredTerminalType)
  | out_of_range
  deriving DecidableEq, Repr

/-- Coupling entry `Idx2D`: group and position; `group = -1` is the
disconnected sentinel. -/
structure Idx2D where
  group : Int
  pos : Int
  deriving DecidableEq, Repr

/-- Coupling entry `Idx2DBranch3`: one group and three positions
(`std::array<Idx, 3>`), one per winding. -/
structure Idx2DBranch3 where
  group : Int
  pos : Fin 3 → Int

/-- The type `ComplexValue<sym>`: one complex scalar when symmetric, one per
phase when asymmetric. -/
def ComplexValue (D : Type) : Bool → Type
  | true => D
  | false => D × D × D

/-- The type `RealValue<sym>`: one real scalar when symmetric, one per phase
when asymmetric. -/
def RealValue (R : Type) : Bool → Type
  | true => R
  | false => R × R × R

/-- Zero of `RealValue<sym>`: zero in every phase. -/
instance instZeroRealValue (R : Type) [Zero R] : (sym : Bool) → Zero (RealValue R sym)
  | true => ⟨(0 : R)⟩
  | false => ⟨((0 : R), (0 : R), (0 : R))⟩

/-- Per-branch solver output `BranchMathOutput<sym>`; `output.hpp` reads
`s_f` and `s_t`. -/
structure BranchMathOutput (D : Type) (sym : Bool) where
  s_f : ComplexValue D sym
  s_t : ComplexValue D sym
  i_f : ComplexValue D sym
  i_t : ComplexValue D sym

/-- Per-appliance solver output `ApplianceMathOutput<sym>`; `output.hpp` reads
`s`. -/
structure ApplianceMathOutput (D : Type) (sym : Bool) where
  s : ComplexValue D sym
  i : ComplexValue D sym

/-- Solver output of one group, `MathOutput<sym>`, with the members that
`output.hpp` subscripts. -/
structure MathOutput (D : Type) (sym : Bool) where
  u : List (ComplexValue D sym)
  bus_injection : List (ComplexValue D sym)
  branch : List (BranchMathOutput D sym)
  source : List (ApplianceMathOutput D sym)
  shunt : List (ApplianceMathOutput D sym)
  load_gen : List (ApplianceMathOutput D sym)

/-- Modelled from the spec: an output record. The output structs are declared
in a header that is not part of the sources; the spec describes a record as an
energized flag next to the flow / power / current fields, each a
`RealValue<sym>`. The record also carries the id of its component. -/
structure OutputRecord (R : Type) (sym : Bool) where
  id : Int
  energized : Bool
  fields : List (RealValue R sym)

/-- Modelled from the spec: the null output of a component, what
`get_null_output<sym>()` returns. The member is defined in the component
headers, which are not part of the sources; the spec gives its result as
"energized flag false, other fields zeroed". `width` is the number of value
fields of the component's output struct. -/
def null_output {R : Type} [Zero R] (sym : Bool) (id : Int) (width : Nat) : OutputRecord R sym :=
  ⟨id, false, List.replicate width 0⟩

/-- A `Node` object: its id, the width of its output struct, and the member
`get_output<sym>(u, bus_injection)`. -/
structure Node (R D : Type) where
  id : Int
  width : Nat
  get_output : (sym : Bool) → ComplexValue D sym → ComplexValue D sym → OutputRecord R sym

/-- A `Branch` object (any subtype, seen through the base class). -/
structure Branch (R D : Type) where
  id : Int
  width : Nat
  get_output : (sym : Bool) → BranchMathOutput D sym → OutputRecord R sym

/-- A `Branch3` object (any subtype, seen through the base class). -/
structure Branch3 (R D : Type) where
  id : Int
  width : Nat
  get_output : (sym : Bool) → BranchMathOutput D sym → BranchMathOutput D sym →
    BranchMathOutput D sym → OutputRecord R sym

/-- An appliance object seen through `Source`, `GenericLoadGen` or `Shunt`:
the three classes offer the same two members to `output.hpp`. -/
structure ApplianceObj (R D : Type) where
  id : Int
  width : Nat
  get_output : (sym : Bool) → ApplianceMathOutput D sym → OutputRecord R sym

/-- A `Source` object. -/
abbrev Source (R D : Type) := ApplianceObj R D

/-- A `GenericLoadGen` object (any subtype, seen through the base class). -/
abbrev GenericLoadGen (R D : Type) := ApplianceObj R D

/-- A `Shunt` object. -/
abbrev Shunt (R D : Type) := ApplianceObj R D

/-- A `GenericVoltageSensor` object (any subtype). -/
structure GenericVoltageSensor (R D : Type) where
  id : Int
  width : Nat
  get_output : (sym : Bool) → ComplexValue D sym → OutputRecord R sym

/-- A `GenericPowerSensor` object (any subtype). -/
structure GenericPowerSensor (R D : Type) where
  id : Int
  width : Nat
  get_terminal_type : MeasuredTerminalType
  get_output : (sym : Bool) → ComplexValue D sym → OutputRecord R sym

/-- A `Fault` object: `get_output()` takes no argument and is not templated on
`sym`, so its record has plain scalar fields. -/
structure Fault (R : Type) where
  id : Int
  get_output : OutputRecord R true

/-- Modelled from the spec: the member `get_null_output<sym>()` of `Node`,
defined outside the sources; see `null_output`. -/
def Node.get_null_output {R D : Type} [Zero R] (c : Node R D) (sym : Bool) : OutputRecord R sym :=
  null_output sym c.id c.width

/-- Modelled from the spec: the member `get_null_output<sym>()` of `Branch`,
defined outside the sources; see `null_output`. -/
def Branch.get_null_output {R D : Type} [Zero R] (c : Branch R D) (sym : Bool) : OutputRecord R sym :=
  null_output sym c.id c.width

/-- Modelled from the spec: the member `get_null_output<sym>()` of `Branch3`,
defined outside the sources; see `null_output`. -/
def Branch3.get_null_output {R D : Type} [Zero R] (c : Branch3 R D) (sym : Bool) :
    OutputRecord R sym :=
  null_output sym c.id c.width

/-- Modelled from the spec: the member `get_null_output<sym>()` of `Source`,
`GenericLoadGen` and `Shunt`, defined outside the sources; see `null_output`. -/
def ApplianceObj.get_null_output {R D : Type} [Zero R] (c : ApplianceObj R D) (sym : Bool) :
    OutputRecord R sym :=
  null_output sym c.id c.width

/-- Modelled from the spec: the member `get_null_output<sym>()` of `GenericVoltageSensor`,
defined outside the sources; see `null_output`. -/
def GenericVoltageSensor.get_null_output {R D : Type} [Zero R] (c : GenericVoltageSensor R D)
    (sym : Bool) : OutputRecord R sym :=
  null_output sym c.id c.width

/-- Modelled from the spec: the member `get_null_output<sym>()` of `GenericPowerSensor`,
defined outside the sources; see `null_output`. -/
def GenericPowerSensor.get_null_output {R D : Type} [Zero R] (c : GenericPowerSensor R D)
    (sym : Bool) : OutputRecord R sym :=
  null_output sym c.id c.width

/-- The template argument `Component` of a category that has subtypes: the
base class itself, or the `k`-th subtype in canonical storage order. -/
inductive Sel where
  | base
  | sub (k : Nat)
  deriving DecidableEq, Repr

/-- Modelled from the spec: `Container::citer<Component>()`. The container
class is not part of the sources. The spec's invariant: within a category all
instances of every subtype are stored contiguously in a fixed global order.
A category is the list of its subtype groups in canonical order; iterating the
base class visits every group in that order, iterating a subtype visits its
own group. -/
def citer {α : Type} (groups : List (List α)) : Sel → List α
  | .base => groups.flatten
  | .sub k => groups.getD k []

/-- Modelled from the spec: `Container::get_start_idx<BaseComponent,
Component>()`, "the number of instances of subtypes ordered before it in the
canonical storage order"; nothing is ordered before the base class itself. -/
def get_start_idx {α : Type} (groups : List (List α)) : Sel → Nat
  | .base => 0
  | .sub k => ((groups.take k).map List.length).sum

/-- The member `components` of the state: one list per category without
subtypes, one list of subtype groups per category with subtypes. -/
structure Components (R D : Type) where
  node : List (Node R D)
  branch : List (List (Branch R D))
  branch3 : List (List (Branch3 R D))
  source : List (Source R D)
  load_gen : List (List (GenericLoadGen R D))
  shunt : List (Shunt R D)
  voltage_sensor : List (List (GenericVoltageSensor R D))
  power_sensor : List (List (GenericPowerSensor R D))
  fault : List (Fault R)

/-- The coupling tables `*state.comp_coup`. -/
structure ComponentToMathCoupling where
  node : List Idx2D
  branch : List Idx2D
  branch3 : List Idx2DBranch3
  source : List Idx2D
  load_gen : List Idx2D
  shunt : List Idx2D
  fault : List Idx2D

/-- The two sensor index arrays of `*state.comp_topo` that `output.hpp` reads. -/
structure ComponentTopology where
  voltage_sensor_node_idx : List Int
  power_sensor_object_idx : List Int

/-- The state `MainModelState<ComponentContainer>`. -/
structure MainModelState (R D : Type) where
  components : Components R D
  comp_topo : ComponentTopology
  comp_coup : ComponentToMathCoupling

/-- A const iterator into a vector: the vector and a position in it. -/
structure Iter (β : Type) where
  base : List β
  pos : Nat

/-- Subscript `xs[i]` of a vector by a signed index. -/
def subscript {α : Type} (xs : List α) (i : Int) : Except Err α :=
  if 0 ≤ i then
    match xs[i.toNat]? with
    | some x => .ok x
    | none => .error .out_of_range
  else .error .out_of_range

namespace detail

/-- The function `comp_sequence_offset<BaseComponent, Component>(state)`, given
the storage of the category `BaseComponent`. -/
def comp_sequence_offset {α : Type} (groups : List (List α)) (sel : Sel) : Nat :=
  get_start_idx groups sel

/-- The overload of `comp_base_sequence_cbegin` for `Node`. -/
def comp_base_sequence_cbegin_node {R D : Type} (state : MainModelState R D) : Iter Idx2D :=
  ⟨state.comp_coup.node, 0⟩

/-- The overload of `comp_base_sequence_cbegin` for a class derived from `Branch`. -/
def comp_base_sequence_cbegin_branch {R D : Type} (state : MainModelState R D) (sel : Sel) :
    Iter Idx2D :=
  ⟨state.comp_coup.branch, comp_sequence_offset state.components.branch sel⟩

/-- The overload of `comp_base_sequence_cbegin` for a class derived from `Branch3`. -/
def comp_base_sequence_cbegin_branch3 {R D : Type} (state : MainModelState R D) (sel : Sel) :
    Iter Idx2DBranch3 :=
  ⟨state.comp_coup.branch3, comp_sequence_offset state.components.branch3 sel⟩

/-- The overload of `comp_base_sequence_cbegin` for `Source`. -/
def comp_base_sequence_cbegin_source {R D : Type} (state : MainModelState R D) : Iter Idx2D :=
  ⟨state.comp_coup.source, 0⟩

/-- The overload of `comp_base_sequence_cbegin` for a class derived from
`GenericLoadGen`. -/
def comp_base_sequence_cbegin_load_gen {R D : Type} (state : MainModelState R D) (sel : Sel) :
    Iter Idx2D :=
  ⟨state.comp_coup.load_gen, comp_sequence_offset state.components.load_gen sel⟩

/-- The overload of `comp_base_sequence_cbegin` for `Shunt`. -/
def comp_base_sequence_cbegin_shunt {R D : Type} (state : MainModelState R D) : Iter Idx2D :=
  ⟨state.comp_coup.shunt, 0⟩

/-- The overload of `comp_base_sequence_cbegin` for a class derived from
`GenericVoltageSensor`. -/
def comp_base_sequence_cbegin_voltage_sensor {R D : Type} (state : MainModelState R D)
    (sel : Sel) : Iter Int :=
  ⟨state.comp_topo.voltage_sensor_node_idx,
    comp_sequence_offset state.components.voltage_sensor sel⟩

/-- The overload of `comp_base_sequence_cbegin` for a class derived from
`GenericPowerSensor`. -/
def comp_base_sequence_cbegin_power_sensor {R D : Type} (state : MainModelState R D)
    (sel : Sel) : Iter Int :=
  ⟨state.comp_topo.power_sensor_object_idx,
    comp_sequence_offset state.components.power_sensor sel⟩

/-- The overload of `comp_base_sequence_cbegin` for `Fault`. -/
def comp_base_sequence_cbegin_fault {R D : Type} (state : MainModelState R D) : Iter Idx2D :=
  ⟨state.comp_coup.fault, 0⟩

/-- The binary `std::transform(first1, last1, first2, d_first, op)`: for each
element of the first range in order, read the element of the second range at
the same distance, apply `op`, store the result through the destination
iterator and advance all three. The destination is the buffer `dest` with the
iterator at position `res_it`; the result is the buffer after the call and
either the advanced destination iterator or the failure that stopped it. -/
def transform {α β γ : Type} (op : α → β → Except Err γ) :
    List α → Iter β → List γ → Nat → List γ × Except Err Nat
  | [], _, dest, res_it => (dest, .ok res_it)
  | c :: cs, first2, dest, res_it =>
    match first2.base[first2.pos]? with
    | none => (dest, .error .out_of_range)
    | some e =>
      match op c e with
      | .error err => (dest, .error err)
      | .ok r =>
        if res_it < dest.length then
          transform op cs ⟨first2.base, first2.pos + 1⟩ (dest.set res_it r) (res_it + 1)
        else (dest, .error .out_of_range)

/-- The function `produce_output<Component, IndexType>(state, res_it, func)`.
The two arguments `comps` and `first2` are `state.components.citer<Component>()`
and `comp_base_sequence_cbegin<Component>(state)`, which each overload of
`output_result` below supplies for its own `Component`. -/
def produce_output {α β γ : Type} (comps : List α) (first2 : Iter β) (dest : List γ)
    (res_it : Nat) (func : α → β → Except Err γ) : List γ × Except Err Nat :=
  transform func comps first2 dest res_it

end detail

/-- The lambda of `output_result` for `Node`. -/
def node_func {R D : Type} [Zero R] (sym : Bool) (math_output : List (MathOutput D sym))
    (node : Node R D) (math_id : Idx2D) : Except Err (OutputRecord R sym) :=
  if math_id.group = -1 then .ok (node.get_null_output sym)
  else do
    let g ← subscript math_output math_id.group
    let u ← subscript g.u math_id.pos
    let bus_injection ← subscript g.bus_injection math_id.pos
    .ok (node.get_output sym u bus_injection)

/-- The lambda of `output_result` for a class derived from `Branch`. -/
def branch_func {R D : Type} [Zero R] (sym : Bool) (math_output : List (MathOutput D sym))
    (branch : Branch R D) (math_id : Idx2D) : Except Err (OutputRecord R sym) :=
  if math_id.group = -1 then .ok (branch.get_null_output sym)
  else do
    let g ← subscript math_output math_id.group
    let b ← subscript g.branch math_id.pos
    .ok (branch.get_output sym b)

/-- The lambda of `output_result` for a class derived from `Branch3`. -/
def branch3_func {R D : Type} [Zero R] (sym : Bool) (math_output : List (MathOutput D sym))
    (branch3 : Branch3 R D) (math_id : Idx2DBranch3) : Except Err (OutputRecord R sym) :=
  if math_id.group = -1 then .ok (branch3.get_null_output sym)
  else do
    let g ← subscript math_output math_id.group
    let b0 ← subscript g.branch (math_id.pos 0)
    let b1 ← subscript g.branch (math_id.pos 1)
    let b2 ← subscript g.branch (math_id.pos 2)
    .ok (branch3.get_output sym b0 b1 b2)

/-- The lambda of `output_result` for `Source`. -/
def source_func {R D : Type} [Zero R] (sym : Bool) (math_output : List (MathOutput D sym))
    (source : Source R D) (math_id : Idx2D) : Except Err (OutputRecord R sym) :=
  if math_id.group = -1 then .ok (source.get_null_output sym)
  else do
    let g ← subscript math_output math_id.group
    let a ← subscript g.source math_id.pos
    .ok (source.get_output sym a)

/-- The lambda of `output_result` for a class derived from `GenericLoadGen`. -/
def load_gen_func {R D : Type} [Zero R] (sym : Bool) (math_output : List (MathOutput D sym))
    (load_gen : GenericLoadGen R D) (math_id : Idx2D) : Except Err (OutputRecord R sym) :=
  if math_id.group = -1 then .ok (load_gen.get_null_output sym)
  else do
    let g ← subscript math_output math_id.group
    let a ← subscript g.load_gen math_id.pos
    .ok (load_gen.get_output sym a)

/-- The lambda of `output_result` for `Shunt`. -/
def shunt_func {R D : Type} [Zero R] (sym : Bool) (math_output : List (MathOutput D sym))
    (shunt : Shunt R D) (math_id : Idx2D) : Except Err (OutputRecord R sym) :=
  if math_id.group = -1 then .ok (shunt.get_null_output sym)
  else do
    let g ← subscript math_output math_id.group
    let a ← subscript g.shunt math_id.pos
    .ok (shunt.get_output sym a)

/-- The lambda of `output_result` for a class derived from
`GenericVoltageSensor`. -/
def voltage_sensor_func {R D : Type} [Zero R] (sym : Bool) (state : MainModelState R D)
    (math_output : List (MathOutput D sym)) (voltage_sensor : GenericVoltageSensor R D)
    (node_seq : Int) : Except Err (OutputRecord R sym) := do
  let node_math_id ← subscript state.comp_coup.node node_seq
  if node_math_id.group = -1 then .ok (voltage_sensor.get_null_output sym)
  else do
    let g ← subscript math_output node_math_id.group
    let u ← subscript g.u node_math_id.pos
    .ok (voltage_sensor.get_output sym u)

/-- The first switch of the power-sensor lambda: the coupling entry of the
measured object, read from the table the terminal type selects. `name` is the
constant `GenericPowerSensor::name`, declared outside the sources. -/
def power_sensor_obj_math_id {R D : Type} (name : String) (state : MainModelState R D)
    (terminal_type : MeasuredTerminalType) (obj_seq : Int) : Except Err Idx2D :=
  match terminal_type with
  | .branch_from => subscript state.comp_coup.branch obj_seq
  | .branch_to => subscript state.comp_coup.branch obj_seq
  | .source => subscript state.comp_coup.source obj_seq
  | .shunt => subscript state.comp_coup.shunt obj_seq
  | .load => subscript state.comp_coup.load_gen obj_seq
  | .generator => subscript state.comp_coup.load_gen obj_seq
  | .branch3_1 => do
    let e ← subscript state.comp_coup.branch3 obj_seq
    .ok ⟨e.group, e.pos 0⟩
  | .branch3_2 => do
    let e ← subscript state.comp_coup.branch3 obj_seq
    .ok ⟨e.group, e.pos 1⟩
  | .branch3_3 => do
    let e ← subscript state.comp_coup.branch3 obj_seq
    .ok ⟨e.group, e.pos 2⟩
  | .node => subscript state.comp_coup.node obj_seq
  | .unlisted raw =>
    .error (.MissingCaseForEnumError (name ++ " output_result()") (.unlisted raw))

/-- The second switch of the power-sensor lambda: the sub-quantity of the
group output that the terminal type selects, handed to `get_output<sym>`. -/
def power_sensor_select {R D : Type} (name : String) (sym : Bool)
    (math_output : List (MathOutput D sym)) (power_sensor : GenericPowerSensor R D)
    (terminal_type : MeasuredTerminalType) (obj_math_id : Idx2D) :
    Except Err (OutputRecord R sym) :=
  match terminal_type with
  | .branch_from => do
    let g ← subscript math_output obj_math_id.group
    let b ← subscript g.branch obj_math_id.pos
    .ok (power_sensor.get_output sym b.s_f)
  | .branch3_1 => do
    let g ← subscript math_output obj_math_id.group
    let b ← subscript g.branch obj_math_id.pos
    .ok (power_sensor.get_output sym b.s_f)
  | .branch3_2 => do
    let g ← subscript math_output obj_math_id.group
    let b ← subscript g.branch obj_math_id.pos
    .ok (power_sensor.get_output sym b.s_f)
  | .branch3_3 => do
    let g ← subscript math_output obj_math_id.group
    let b ← subscript g.branch obj_math_id.pos
    .ok (power_sensor.get_output sym b.s_f)
  | .branch_to => do
    let g ← subscript math_output obj_math_id.group
    let b ← subscript g.branch obj_math_id.pos
    .ok (power_sensor.get_output sym b.s_t)
  | .source => do
    let g ← subscript math_output obj_math_id.group
    let a ← subscript g.source obj_math_id.pos
    .ok (power_sensor.get_output sym a.s)
  | .shunt => do
    let g ← subscript math_output obj_math_id.group
    let a ← subscript g.shunt obj_math_id.pos
    .ok (power_sensor.get_output sym a.s)
  | .load => do
    let g ← subscript math_output obj_math_id.group
    let a ← subscript g.load_gen obj_math_id.pos
    .ok (power_sensor.get_output sym a.s)
  | .generator => do
    let g ← subscript math_output obj_math_id.group
    let a ← subscript g.load_gen obj_math_id.pos
    .ok (power_sensor.get_output sym a.s)
  | .node => do
    let g ← subscript math_output obj_math_id.group
    let s ← subscript g.bus_injection obj_math_id.pos
    .ok (power_sensor.get_output sym s)
  | .unlisted raw =>
    .error (.MissingCaseForEnumError (name ++ " output_result()") (.unlisted raw))

/-- The lambda of `output_result` for a class derived from `GenericPowerSensor`. -/
def power_sensor_func {R D : Type} [Zero R] (name : String) (sym : Bool)
    (state : MainModelState R D) (math_output : List (MathOutput D sym))
    (power_sensor : GenericPowerSensor R D) (obj_seq : Int) :
    Except Err (OutputRecord R sym) := do
  let terminal_type := power_sensor.get_terminal_type
  let obj_math_id ← power_sensor_obj_math_id name state terminal_type obj_seq
  if obj_math_id.group = -1 then .ok (power_sensor.get_null_output sym)
  else power_sensor_select name sym math_output power_sensor terminal_type obj_math_id

/-- The lambda of `output_result` for `Fault`. -/
def fault_func {R : Type} (fault : Fault R) (_math_id : Idx2D) :
    Except Err (OutputRecord R true) :=
  .ok fault.get_output

/-- The overload `output_result<sym, Node>`. -/
def output_result_node {R D : Type} [Zero R] (sym : Bool) (state : MainModelState R D)
    (math_output : List (MathOutput D sym)) (dest : List (OutputRecord R sym)) (res_it : Nat) :
    List (OutputRecord R sym) × Except Err Nat :=
  detail.produce_output state.components.node (detail.comp_base_sequence_cbegin_node state)
    dest res_it (node_func sym math_output)

/-- The overload `output_result<sym, Component>` for `Component` derived from
`Branch`. -/
def output_result_branch {R D : Type} [Zero R] (sym : Bool) (sel : Sel)
    (state : MainModelState R D) (math_output : List (MathOutput D sym))
    (dest : List (OutputRecord R sym)) (res_it : Nat) :
    List (OutputRecord R sym) × Except Err Nat :=
  detail.produce_output (citer state.components.branch sel)
    (detail.comp_base_sequence_cbegin_branch state sel) dest res_it (branch_func sym math_output)

/-- The overload `output_result<sym, Component>` for `Component` derived from
`Branch3`. -/
def output_result_branch3 {R D : Type} [Zero R] (sym : Bool) (sel : Sel)
    (state : MainModelState R D) (math_output : List (MathOutput D sym))
    (dest : List (OutputRecord R sym)) (res_it : Nat) :
    List (OutputRecord R sym) × Except Err Nat :=
  detail.produce_output (citer state.components.branch3 sel)
    (detail.comp_base_sequence_cbegin_branch3 state sel) dest res_it
    (branch3_func sym math_output)

/-- The overload `output_result<sym, Source>`. -/
def output_result_source {R D : Type} [Zero R] (sym : Bool) (state : MainModelState R D)
    (math_output : List (MathOutput D sym)) (dest : List (OutputRecord R sym)) (res_it : Nat) :
    List (OutputRecord R sym) × Except Err Nat :=
  detail.produce_output state.components.source (detail.comp_base_sequence_cbegin_source state)
    dest res_it (source_func sym math_output)

/-- The overload `output_result<sym, Component>` for `Component` derived from
`GenericLoadGen`. -/
def output_result_load_gen {R D : Type} [Zero R] (sym : Bool) (sel : Sel)
    (state : MainModelState R D) (math_output : List (MathOutput D sym))
    (dest : List (OutputRecord R sym)) (res_it : Nat) :
    List (OutputRecord R sym) × Except Err Nat :=
  detail.produce_output (citer state.components.load_gen sel)
    (detail.comp_base_sequence_cbegin_load_gen state sel) dest res_it
    (load_gen_func sym math_output)

/-- The overload `output_result<sym, Shunt>`. -/
def output_result_shunt {R D : Type} [Zero R] (sym : Bool) (state : MainModelState R D)
    (math_output : List (MathOutput D sym)) (dest : List (OutputRecord R sym)) (res_it : Nat) :
    List (OutputRecord R sym) × Except Err Nat :=
  detail.produce_output state.components.shunt (detail.comp_base_sequence_cbegin_shunt state)
    dest res_it (shunt_func sym math_output)

/-- The overload `output_result<sym, Appliance>`: source, then load_gen, then
shunt, each continuing at the iterator the previous one returned. An exception
leaves the function at the call that raised it. -/
def output_result_appliance {R D : Type} [Zero R] (sym : Bool) (state : MainModelState R D)
    (math_output : List (MathOutput D sym)) (dest : List (OutputRecord R sym)) (res_it : Nat) :
    List (OutputRecord R sym) × Except Err Nat :=
  match output_result_source sym state math_output dest res_it with
  | (dest1, .error err) => (dest1, .error err)
  | (dest1, .ok res_it1) =>
    match output_result_load_gen sym .base state math_output dest1 res_it1 with
    | (dest2, .error err) => (dest2, .error err)
    | (dest2, .ok res_it2) => output_result_shunt sym state math_output dest2 res_it2

/-- The overload `output_result<sym, Component>` for `Component` derived from
`GenericVoltageSensor`. -/
def output_result_voltage_sensor {R D : Type} [Zero R] (sym : Bool) (sel : Sel)
    (state : MainModelState R D) (math_output : List (MathOutput D sym))
    (dest : List (OutputRecord R sym)) (res_it : Nat) :
    List (OutputRecord R sym) × Except Err Nat :=
  detail.produce_output (citer state.components.voltage_sensor sel)
    (detail.comp_base_sequence_cbegin_voltage_sensor state sel) dest res_it
    (voltage_sensor_func sym state math_output)

/-- The overload `output_result<sym, Component>` for `Component` derived from
`GenericPowerSensor`. -/
def output_result_power_sensor {R D : Type} [Zero R] (name : String) (sym : Bool) (sel : Sel)
    (state : MainModelState R D) (math_output : List (MathOutput D sym))
    (dest : List (OutputRecord R sym)) (res_it : Nat) :
    List (OutputRecord R sym) × Except Err Nat :=
  detail.produce_output (citer state.components.power_sensor sel)
    (detail.comp_base_sequence_cbegin_power_sensor state sel) dest res_it
    (power_sensor_func name sym state math_output)

/-- The overload `output_result<sym, Fault>`; the math output is not used. -/
def output_result_fault {R D : Type} (sym : Bool) (state : MainModelState R D)
    (_math_output : List (MathOutput D sym)) (dest : List (OutputRecord R true)) (res_it : Nat) :
    List (OutputRecord R true) × Except Err Nat :=
  detail.produce_output state.components.fault (detail.comp_base_sequence_cbegin_fault state)
    dest res_it fault_func

/-! ## The written range -/

/-- The records a projection has to write, in order: `op` applied to the
components and to the entries of the second range at the same distance. This
is the specification `project(components, coupling_slice, formula)` against
which `transform` is compared; it has no destination buffer. -/
def project {α β γ : Type} (op : α → β → Except Err γ) : List α → Iter β → Except Err (List γ)
  | [], _ => .ok []
  | c :: cs, first2 =>
    match first2.base[first2.pos]? with
    | none => .error .out_of_range
    | some e =>
      match op c e with
      | .error err => .error err
      | .ok r =>
        match project op cs ⟨first2.base, first2.pos + 1⟩ with
        | .error err => .error err
        | .ok rs => .ok (r :: rs)

/-- The buffer `dest` with the records `outs` stored from position `res_it` on. -/
def written {γ : Type} (dest : List γ) (res_it : Nat) (outs : List γ) : List γ :=
  dest.take res_it ++ outs ++ dest.drop (res_it + outs.length)

/-! ## Properties of records and of runs -/

/-- A record is null when it is not energized and every value field is zero. -/
def IsNullOutput {R : Type} [Zero R] {sym : Bool} (o : OutputRecord R sym) : Prop :=
  o.energized = false ∧ ∀ v ∈ o.fields, v = 0

/-- Whenever the projection `run`, started with its destination iterator at
`res_it`, completes, the record at output position `i` of its range is `v`. -/
def Yields {γ : Type} (run : List γ × Except Err Nat) (res_it i : Nat) (v : γ) : Prop :=
  ∀ (dest1 : List γ) (r : Nat), run = (dest1, .ok r) → dest1[res_it + i]? = some v

/-- The records that a run started with its destination iterator at `res_it`
left in the `n` positions from there on: its output sequence. -/
def output_sequence {γ : Type} (run : List γ × Except Err Nat) (res_it n : Nat) : List γ :=
  (run.1.drop res_it).take n

/-- The terminal types that the switches of the power-sensor lambda name. -/
def recognized_terminal_types : List MeasuredTerminalType :=
  [.branch_from, .branch_to, .source, .shunt, .load, .generator,
   .branch3_1, .branch3_2, .branch3_3, .node]

/-! ## A small grid used to evaluate the definitions

Scalars are integers. One solved group; node 3, link 6 and generator 10 are
disconnected. -/

namespace demo

/-- A per-unit value of the symmetric representation. -/
def cv (x : Int) : ComplexValue Int true := x

/-- The magnitude stand-in used by the demo components: the value itself. -/
def rv : (sym : Bool) → ComplexValue Int sym → RealValue Int sym
  | true => fun d => d
  | false => fun d => d

/-- A demo node. -/
def node (id : Int) : Node Int Int :=
  ⟨id, 2, fun sym u bus_injection => ⟨id, true, [rv sym u, rv sym bus_injection]⟩⟩

/-- A demo branch: reports from-side and to-side power. -/
def branch (id : Int) : Branch Int Int :=
  ⟨id, 2, fun sym b => ⟨id, true, [rv sym b.s_f, rv sym b.s_t]⟩⟩

/-- A demo three-winding branch: reports the from-side power of its three legs. -/
def branch3 (id : Int) : Branch3 Int Int :=
  ⟨id, 3, fun sym b0 b1 b2 => ⟨id, true, [rv sym b0.s_f, rv sym b1.s_f, rv sym b2.s_f]⟩⟩

/-- A demo appliance. -/
def appliance (id : Int) : ApplianceObj Int Int :=
  ⟨id, 1, fun sym a => ⟨id, true, [rv sym a.s]⟩⟩

/-- A demo voltage sensor. -/
def voltage_sensor (id : Int) : GenericVoltageSensor Int Int :=
  ⟨id, 1, fun sym u => ⟨id, true, [rv sym u]⟩⟩

/-- A demo power sensor with the given terminal type. -/
def power_sensor (id : Int) (t : MeasuredTerminalType) : GenericPowerSensor Int Int :=
  ⟨id, 1, t, fun sym s => ⟨id, true, [rv sym s]⟩⟩

/-- The demo components: three nodes, a line and two links, one three-winding
transformer, one source, a load and a generator, one shunt, two voltage sensors
of different subtypes, and power sensors. -/
def components : Components Int Int :=
  ⟨[node 1, node 2, node 3],
   [[branch 4], [branch 5, branch 6]],
   [[branch3 7]],
   [appliance 8],
   [[appliance 9], [appliance 10]],
   [appliance 11],
   [[voltage_sensor 12], [voltage_sensor 13]],
   [[power_sensor 14 .branch_from, power_sensor 15 .branch_to, power_sensor 16 .branch3_2,
     power_sensor 17 .node, power_sensor 18 .generator]],
   []⟩

/-- The demo coupling tables. -/
def comp_coup : ComponentToMathCoupling :=
  ⟨[⟨0, 0⟩, ⟨0, 1⟩, ⟨-1, -1⟩],
   [⟨0, 0⟩, ⟨0, 1⟩, ⟨-1, -1⟩],
   [⟨0, ![2, 3, 4]⟩],
   [⟨0, 0⟩],
   [⟨0, 0⟩, ⟨-1, -1⟩],
   [⟨0, 0⟩],
   []⟩

/-- The demo sensor index arrays: sensor 12 observes node index 1, sensor 13
node index 2; the power sensors measure branch 0, branch 1, three-winding
branch 0, node 1 and load_gen 1. -/
def comp_topo : ComponentTopology :=
  ⟨[1, 2], [0, 1, 0, 1, 1]⟩

/-- The demo state. -/
def state : MainModelState Int Int :=
  ⟨components, comp_topo, comp_coup⟩

/-- A demo branch flow: from-side power `s`, to-side power `-s`. -/
def flow (s : Int) : BranchMathOutput Int true :=
  ⟨cv s, cv (-s), cv 0, cv 0⟩

/-- The solver output of the demo group: two buses, five branches, one source,
one shunt and one load. -/
def group0 : MathOutput Int true :=
  ⟨[cv 100, cv 101], [cv 200, cv 201],
    [flow 10, flow 11, flow 12, flow 13, flow 14],
    [⟨cv 30, cv 0⟩], [⟨cv 40, cv 0⟩], [⟨cv 50, cv 0⟩]⟩

/-- The demo solver output: the one group. -/
def math_output : List (MathOutput Int true) :=
  [group0]

/-- A record of the symmetric representation with the given integer fields. -/
def record (id : Int) (energized : Bool) (fields : List Int) : OutputRecord Int true :=
  ⟨id, energized, fields⟩

/-- A blank record, the content of a destination buffer before a run. -/
def blank : OutputRecord Int true := record 0 false []

/-- The demo components with three power sensors, the second of which has a
terminal type outside the enumerators. -/
def components_unlisted : Components Int Int :=
  ⟨[node 1, node 2, node 3],
   [[branch 4], [branch 5, branch 6]],
   [[branch3 7]],
   [appliance 8],
   [[appliance 9], [appliance 10]],
   [appliance 11],
   [[voltage_sensor 12], [voltage_sensor 13]],
   [[power_sensor 14 .branch_from, power_sensor 19 (.unlisted 42),
     power_sensor 15 .branch_to]],
   []⟩

/-- The demo state with the unlisted sensor; the three sensors measure the
objects 0, 0 and 1. -/
def state_unlisted : MainModelState Int Int :=
  ⟨components_unlisted, ⟨[1, 2], [0, 0, 1]⟩, comp_coup⟩

/-- A demo fault; its record has no value fields. -/
def fault (id : Int) : Fault Int :=
  ⟨id, record id true []⟩

/-- The demo components with two faults. -/
def components_fault : Components Int Int :=
  ⟨[node 1, node 2, node 3], [], [], [], [], [], [], [], [fault 21, fault 22]⟩

/-- A demo state with two faults whose coupling entries are a disconnected one
and one that points outside every group. -/
def state_fault : MainModelState Int Int :=
  ⟨components_fault, ⟨[], []⟩, ⟨[], [], [], [], [], [], [⟨-1, -1⟩, ⟨5, 7⟩]⟩⟩

/-- The same faults with a different, longer fault coupling table. -/
def state_fault_other : MainModelState Int Int :=
  ⟨components_fault, ⟨[], []⟩, ⟨[], [], [], [], [], [], [⟨0, 0⟩, ⟨0, 1⟩, ⟨-1, 0⟩]⟩⟩

/-- A branch storage with three subtypes in canonical order: one line, two
links, one transformer. -/
def branch_storage : List (List (Branch Int Int)) :=
  [[branch 4], [branch 5, branch 6], [branch 20]]

/-- The demo coupling tables with other branch entries outside the slice of the
links (positions 1 and 2): another entry for the line and one more entry at
the end; the node table has one more entry after those of the three nodes. -/
def comp_coup_other : ComponentToMathCoupling :=
  ⟨[⟨0, 0⟩, ⟨0, 1⟩, ⟨-1, -1⟩, ⟨8, 8⟩],
   [⟨7, 7⟩, ⟨0, 1⟩, ⟨-1, -1⟩, ⟨9, 9⟩],
   [⟨0, ![2, 3, 4]⟩],
   [⟨0, 0⟩],
   [⟨0, 0⟩, ⟨-1, -1⟩],
   [⟨0, 0⟩],
   []⟩

/-- The demo state with the other coupling tables. -/
def state_other : MainModelState Int Int :=
  ⟨components, comp_topo, comp_coup_other⟩

end demo

/-! ## Link construction -/

/-- Modelled from the spec: the error kind of an invalid branch. The exception
class `InvalidBranch` is declared outside the sources and `test_link.cpp`
names it; the spec asks for "a distinct error kind". -/
inductive BranchError where
  | InvalidBranch
  deriving DecidableEq, Repr

/-- Modelled from the spec: the input of a link, `LinkInput`, declared outside
the sources. `test_link.cpp` initialises it with five values: the id, the
from-side and to-side node, and the from-side and to-side status. -/
structure LinkInput where
  id : Int
  from_node : Int
  to_node : Int
  from_status : Int
  to_status : Int
  deriving DecidableEq, Repr

/-- Modelled from the spec: a constructed link; it keeps its input and its two
rated voltages, of a scalar type `V`. -/
structure Link (V : Type) where
  input : LinkInput
  u1_rated : V
  u2_rated : V
  deriving DecidableEq, Repr

/-- Modelled from the spec: the constructor `Link(link_input, u1_rated,
u2_rated)`; `link.hpp` and `branch.hpp` are not part of the sources. The spec:
"A branch whose two terminals resolve to the same node is invalid and must be
rejected at construction (not at projection time) with a distinct error
kind." -/
def Link.construct {V : Type} (link_input : LinkInput) (u1_rated u2_rated : V) :
    Except BranchError (Link V) :=
  if link_input.from_node = link_input.to_node then .error .InvalidBranch
  else .ok ⟨link_input, u1_rated, u2_rated⟩

/-- The link input of `test_link.cpp`: id 1 from node 2 to node 3, both sides
connected. -/
def demo.link_input : LinkInput := ⟨1, 2, 3, 1, 1⟩

/-- The input of the test with `to_node` set to 2, the from-side node. -/
def demo.link_input_same_node : LinkInput := ⟨1, 2, 2, 1, 1⟩

/-! ## Well-formedness of the coupling against a math output -/

/-- Whether `i` is a valid subscript of `xs`. -/
def in_range {α : Type} (xs : List α) (i : Int) : Bool :=
  decide (0 ≤ i) && decide (i.toNat < xs.length)

/-- Whether a coupling entry with the given group and position is either
disconnected (group -1) or has its group within the math output and its
position within the array of that group whose size `size` gives. -/
def entry_within {D : Type} {sym : Bool} (math_output : List (MathOutput D sym))
    (size : MathOutput D sym → Nat) (group pos : Int) : Bool :=
  group == -1 ||
    (match subscript math_output group with
      | .ok G => decide (0 ≤ pos) && decide (pos.toNat < size G)
      | .error _ => false)

/-- Every coupling entry with a group other than -1 has its group within the
math output and its positions within the arrays of that group that it is used
to subscript: `u` and `bus_injection` for a node entry, `branch` for a branch
entry and for the three positions of a three-winding entry, `source`,
`load_gen` and `shunt` for the appliance entries. -/
def coupling_within {R D : Type} {sym : Bool} (state : MainModelState R D)
    (math_output : List (MathOutput D sym)) : Bool :=
  state.comp_coup.node.all (fun e =>
    entry_within math_output (fun G => G.u.length) e.group e.pos &&
    entry_within math_output (fun G => G.bus_injection.length) e.group e.pos) &&
  state.comp_coup.branch.all (fun e =>
    entry_within math_output (fun G => G.branch.length) e.group e.pos) &&
  state.comp_coup.branch3.all (fun e =>
    entry_within math_output (fun G => G.branch.length) e.group (e.pos 0) &&
    entry_within math_output (fun G => G.branch.length) e.group (e.pos 1) &&
    entry_within math_output (fun G => G.branch.length) e.group (e.pos 2)) &&
  state.comp_coup.source.all (fun e =>
    entry_within math_output (fun G => G.source.length) e.group e.pos) &&
  state.comp_coup.load_gen.all (fun e =>
    entry_within math_output (fun G => G.load_gen.length) e.group e.pos) &&
  state.comp_coup.shunt.all (fun e =>
    entry_within math_output (fun G => G.shunt.length) e.group e.pos)

/-- Whether the object index of a power sensor is within the coupling table
that its terminal type selects; an unrecognized terminal type selects none. -/
def object_index_within {R D : Type} (state : MainModelState R D)
    (terminal_type : MeasuredTerminalType) (obj_seq : Int) : Bool :=
  match terminal_type with
  | .branch_from => in_range state.comp_coup.branch obj_seq
  | .branch_to => in_range state.comp_coup.branch obj_seq
  | .source => in_range state.comp_coup.source obj_seq
  | .shunt => in_range state.comp_coup.shunt obj_seq
  | .load => in_range state.comp_coup.load_gen obj_seq
  | .generator => in_range state.comp_coup.load_gen obj_seq
  | .branch3_1 => in_range state.comp_coup.branch3 obj_seq
  | .branch3_2 => in_range state.comp_coup.branch3 obj_seq
  | .branch3_3 => in_range state.comp_coup.branch3 obj_seq
  | .node => in_range state.comp_coup.node obj_seq
  | .unlisted _ => true

/-- Every voltage sensor of the projected subtype observes a node index that
is within the node coupling table. -/
def VoltageSensorsWithin {R D : Type} (state : MainModelState R D) (sel : Sel) : Prop :=
  ∀ (i : Nat) (node_seq : Int), i < (citer state.components.voltage_sensor sel).length →
    state.comp_topo.voltage_sensor_node_idx[
      detail.comp_sequence_offset state.components.voltage_sensor sel + i]? = some node_seq →
    in_range state.comp_coup.node node_seq = true

/-- Every power sensor of the projected subtype has a recognized terminal type
and an object index within the coupling table that the terminal type
selects. -/
def PowerSensorsWithin {R D : Type} (state : MainModelState R D) (sel : Sel) : Prop :=
  ∀ (i : Nat) (power_sensor : GenericPowerSensor R D) (obj_seq : Int),
    (citer state.components.power_sensor sel)[i]? = some power_sensor →
    state.comp_topo.power_sensor_object_idx[
      detail.comp_sequence_offset state.components.power_sensor sel + i]? = some obj_seq →
    power_sensor.get_terminal_type ∈ recognized_terminal_types ∧
      object_index_within state power_sensor.get_terminal_type obj_seq = true

/-- The run writes `n` records from position `res_it` on into `dest`, leaves
the other positions as they were, and returns the iterator advanced by `n`:
no failure stopped it. -/
def Completes {γ : Type} (run : List γ × Except Err Nat) (dest : List γ) (res_it n : Nat) :
    Prop :=
  ∃ outs : List γ, outs.length = n ∧ run = (written dest res_it outs, .ok (res_it + n))

/-! ## Lemmas on the destination buffer -/

theorem take_succ_set {γ : Type} (dest : List γ) (k : Nat) (r : γ) (h : k < dest.length) :
    (dest.set k r).take (k + 1) = dest.take k ++ [r] := by
  induction dest generalizing k with
  | nil => simp at h
  | cons d ds ih =>
    cases k with
    | zero => simp
    | succ k =>
      simp only [List.length_cons, Nat.add_lt_add_iff_right] at h
      simp [List.set, ih k h]

theorem drop_set_lt {γ : Type} (dest : List γ) (k m : Nat) (r : γ) (h : k < m) :
    (dest.set k r).drop m = dest.drop m := by
  rw [List.drop_set, if_pos h]

theorem written_set {γ : Type} (dest : List γ) (res_it : Nat) (r : γ) (rs : List γ)
    (h : res_it < dest.length) :
    written (dest.set res_it r) (res_it + 1) rs = written dest res_it (r :: rs) := by
  unfold written
  rw [take_succ_set dest res_it r h, drop_set_lt dest res_it _ r (by omega)]
  simp [List.append_assoc, Nat.add_assoc, Nat.add_comm 1]

theorem written_nil {γ : Type} (dest : List γ) (res_it : Nat) : written dest res_it [] = dest := by
  simp [written]

theorem length_written {γ : Type} (dest : List γ) (res_it : Nat) (outs : List γ)
    (h : res_it + outs.length ≤ dest.length) : (written dest res_it outs).length = dest.length := by
  simp [written]; omega

theorem getElem?_written_mid {γ : Type} (dest : List γ) (res_it : Nat) (outs : List γ)
    (h : res_it ≤ dest.length) (i : Nat) (hi : i < outs.length) :
    (written dest res_it outs)[res_it + i]? = outs[i]? := by
  unfold written
  rw [List.append_assoc, List.getElem?_append_right (by rw [List.length_take]; omega)]
  simp [Nat.min_eq_left h, List.getElem?_append_left hi]

theorem getElem?_written_out {γ : Type} (dest : List γ) (res_it : Nat) (outs : List γ)
    (h : res_it + outs.length ≤ dest.length) (j : Nat) (hj : j < res_it ∨ res_it + outs.length ≤ j) :
    (written dest res_it outs)[j]? = dest[j]? := by
  unfold written
  rcases hj with hj | hj
  · rw [List.append_assoc, List.getElem?_append_left (by simp; omega)]
    simp [List.getElem?_take, hj]
  · rw [List.getElem?_append_right (by simp; omega)]
    simp only [List.length_append, List.length_take, List.getElem?_drop]
    congr 1
    omega

theorem written_written {γ : Type} (dest : List γ) (k : Nat) (a b : List γ)
    (h : k + a.length ≤ dest.length) :
    written (written dest k a) (k + a.length) b = written dest k (a ++ b) := by
  have hk : (List.take k dest ++ a).length = k + a.length := by
    simp only [List.length_append, List.length_take]
    omega
  have h1 : List.take (k + a.length) (written dest k a) = List.take k dest ++ a := by
    unfold written
    exact List.take_left' hk
  have h2 : List.drop (k + a.length + b.length) (written dest k a)
      = List.drop (k + a.length + b.length) dest := by
    unfold written
    rw [← hk, List.drop_append, List.drop_drop, hk]
  show List.take (k + a.length) (written dest k a) ++ b
      ++ List.drop (k + a.length + b.length) (written dest k a) = _
  rw [h1, h2]
  simp [written, List.append_assoc, Nat.add_assoc]

theorem take_drop_written {γ : Type} (dest : List γ) (k : Nat) (outs : List γ)
    (h : outs ≠ [] → k + outs.length ≤ dest.length) :
    ((written dest k outs).drop k).take outs.length = outs := by
  by_cases h0 : outs = []
  · simp [h0]
  · have hk : (List.take k dest).length = k := by
      have := h h0
      simp only [List.length_take]
      omega
    unfold written
    rw [List.append_assoc, List.drop_left' hk, List.take_left' rfl]

/-! ## Lemmas on transform -/

theorem project_length {α β γ : Type} (op : α → β → Except Err γ) (cs : List α) :
    ∀ (first2 : Iter β) (outs : List γ), project op cs first2 = .ok outs →
      outs.length = cs.length := by
  induction cs with
  | nil => intro first2 outs h; simp [project] at h; simp [← h]
  | cons c cs ih =>
    intro first2 outs h
    simp only [project] at h
    split at h
    · simp at h
    · split at h
      · simp at h
      · split at h
        · simp at h
        · rename_i hrs
          simp only [Except.ok.injEq] at h
          subst h
          simp [ih _ _ hrs]

theorem project_getElem {α β γ : Type} (op : α → β → Except Err γ) (cs : List α) :
    ∀ (first2 : Iter β) (outs : List γ), project op cs first2 = .ok outs →
      ∀ (i : Nat) (c : α), cs[i]? = some c →
        ∃ e r, first2.base[first2.pos + i]? = some e ∧ op c e = .ok r ∧ outs[i]? = some r := by
  induction cs with
  | nil => intro first2 outs _ i c hc; simp at hc
  | cons c0 cs ih =>
    intro first2 outs h i c hc
    simp only [project] at h
    split at h
    · simp at h
    · rename_i e he
      split at h
      · simp at h
      · rename_i r hr
        split at h
        · simp at h
        · rename_i rs hrs
          simp only [Except.ok.injEq] at h
          subst h
          cases i with
          | zero =>
            simp only [List.getElem?_cons_zero, Option.some.injEq] at hc
            subst hc
            exact ⟨e, r, by simpa using he, hr, by simp⟩
          | succ i =>
            simp only [List.getElem?_cons_succ] at hc
            obtain ⟨e1, r1, h1, h2, h3⟩ := ih _ _ hrs i c hc
            refine ⟨e1, r1, ?_, h2, by simpa using h3⟩
            simpa [Nat.add_assoc, Nat.add_comm 1] using h1

theorem project_of_pointwise {α β γ : Type} (op : α → β → Except Err γ) (cs : List α) :
    ∀ (first2 : Iter β) (out : Nat → γ),
      (∀ (i : Nat) (c : α), cs[i]? = some c →
        ∃ e, first2.base[first2.pos + i]? = some e ∧ op c e = .ok (out i)) →
      project op cs first2 = .ok ((List.range cs.length).map out) := by
  induction cs with
  | nil => intro first2 out _; simp [project]
  | cons c0 cs ih =>
    intro first2 out h
    obtain ⟨e, he, hr⟩ := h 0 c0 (by simp)
    have hrest := ih ⟨first2.base, first2.pos + 1⟩ (fun i => out (i + 1)) (by
      intro i c hc
      obtain ⟨e1, h1, h2⟩ := h (i + 1) c (by simpa using hc)
      exact ⟨e1, by simpa [Nat.add_assoc, Nat.add_comm 1] using h1, h2⟩)
    simp only [Nat.add_zero] at he
    simp only [project, he, hr, hrest]
    simp [List.range_succ_eq_map, List.map_map, Function.comp_def]

theorem transform_of_project {α β γ : Type} (op : α → β → Except Err γ) (cs : List α) :
    ∀ (first2 : Iter β) (dest : List γ) (res_it : Nat) (outs : List γ),
      project op cs first2 = .ok outs → res_it + cs.length ≤ dest.length →
      detail.transform op cs first2 dest res_it
        = (written dest res_it outs, .ok (res_it + cs.length)) := by
  induction cs with
  | nil =>
    intro first2 dest res_it outs h _
    simp [project] at h
    subst h
    simp [detail.transform, written_nil]
  | cons c cs ih =>
    intro first2 dest res_it outs h hroom
    simp only [project] at h
    split at h
    · simp at h
    · rename_i e he
      split at h
      · simp at h
      · rename_i r hr
        split at h
        · simp at h
        · rename_i rs hrs
          simp only [Except.ok.injEq] at h
          subst h
          have hlt : res_it < dest.length := by simp at hroom; omega
          simp only [detail.transform, he, hr, hlt, if_true]
          rw [ih _ (dest.set res_it r) (res_it + 1) rs hrs (by simp at hroom ⊢; omega)]
          rw [written_set dest res_it r rs hlt]
          simp [Nat.add_assoc, Nat.add_comm 1]

theorem project_of_transform {α β γ : Type} (op : α → β → Except Err γ) (cs : List α) :
    ∀ (first2 : Iter β) (dest : List γ) (res_it : Nat) (dest1 : List γ) (r : Nat),
      detail.transform op cs first2 dest res_it = (dest1, .ok r) →
      ∃ outs, project op cs first2 = .ok outs ∧ (cs ≠ [] → res_it + cs.length ≤ dest.length) ∧
        dest1 = written dest res_it outs ∧ r = res_it + cs.length := by
  induction cs with
  | nil =>
    intro first2 dest res_it dest1 r h
    simp [detail.transform] at h
    exact ⟨[], by simp [project], by simp, by simp [written_nil, h.1], by simp [h.2]⟩
  | cons c cs ih =>
    intro first2 dest res_it dest1 r h
    simp only [detail.transform] at h
    split at h
    · simp at h
    · rename_i e he
      split at h
      · simp at h
      · rename_i v hv
        split at h
        · rename_i hlt
          obtain ⟨outs, h1, h2, h3, h4⟩ := ih _ _ _ _ _ h
          refine ⟨v :: outs, by simp [project, he, hv, h1], ?_, ?_, ?_⟩
          · intro _
            cases cs with
            | nil => simp; omega
            | cons c1 cs1 =>
              have := h2 (by simp)
              simp at this ⊢
              omega
          · rw [h3, written_set dest res_it v outs hlt]
          · simp [h4]; omega
        · simp at h

theorem transform_error {α β γ : Type} (op : α → β → Except Err γ) (cs : List α) :
    ∀ (first2 : Iter β) (dest : List γ) (res_it : Nat) (dest1 : List γ) (err : Err),
      detail.transform op cs first2 dest res_it = (dest1, .error err) → err ≠ .out_of_range →
      ∃ i c e, cs[i]? = some c ∧ first2.base[first2.pos + i]? = some e ∧ op c e = .error err ∧
        ∀ j, res_it + i ≤ j → dest1[j]? = dest[j]? := by
  induction cs with
  | nil => intro first2 dest res_it dest1 err h _; simp [detail.transform] at h
  | cons c cs ih =>
    intro first2 dest res_it dest1 err h hne
    simp only [detail.transform] at h
    split at h
    · simp only [Prod.mk.injEq, Except.error.injEq] at h
      exact absurd h.2.symm hne
    · rename_i e he
      split at h
      · rename_i err1 herr
        simp only [Prod.mk.injEq, Except.error.injEq] at h
        refine ⟨0, c, e, by simp, by simpa using he, by rw [herr, h.2], ?_⟩
        intro j _
        rw [h.1]
      · rename_i v hv
        split at h
        · obtain ⟨i, c1, e1, h1, h2, h3, h4⟩ := ih _ _ _ _ _ h hne
          refine ⟨i + 1, c1, e1, by simpa using h1, ?_, h3, ?_⟩
          · simpa [Nat.add_assoc, Nat.add_comm 1] using h2
          · intro j hj
            rw [h4 j (by omega), List.getElem?_set_ne (by omega)]
        · simp only [Prod.mk.injEq, Except.error.injEq] at h
          exact absurd h.2.symm hne

theorem produce_output_yields {α β γ : Type} (comps : List α) (first2 : Iter β) (dest : List γ)
    (res_it : Nat) (func : α → β → Except Err γ) (i : Nat) (c : α) (e : β) (v : γ)
    (hc : comps[i]? = some c) (he : first2.base[first2.pos + i]? = some e)
    (hv : func c e = .ok v) :
    Yields (detail.produce_output comps first2 dest res_it func) res_it i v := by
  intro dest1 r hrun
  obtain ⟨outs, h1, h2, h3, _⟩ := project_of_transform func comps first2 dest res_it dest1 r hrun
  obtain ⟨e1, v1, g1, g2, g3⟩ := project_getElem func comps first2 outs h1 i c hc
  rw [he] at g1
  simp only [Option.some.injEq] at g1
  subst g1
  rw [hv] at g2
  simp only [Except.ok.injEq] at g2
  subst g2
  have hlen := project_length func comps first2 outs h1
  have hi : i < comps.length := (List.getElem?_eq_some.mp hc).1
  have hroom := h2 (by intro h0; simp [h0] at hi)
  rw [h3, getElem?_written_mid dest res_it outs (by omega) i (by omega), g3]

theorem produce_output_ok_func {α β γ : Type} (comps : List α) (first2 : Iter β) (dest : List γ)
    (res_it : Nat) (func : α → β → Except Err γ) (dest1 : List γ) (r : Nat)
    (hrun : detail.produce_output comps first2 dest res_it func = (dest1, .ok r))
    (i : Nat) (c : α) (hc : comps[i]? = some c) :
    ∃ e v, first2.base[first2.pos + i]? = some e ∧ func c e = .ok v := by
  obtain ⟨outs, h1, _, _, _⟩ := project_of_transform func comps first2 dest res_it dest1 r hrun
  obtain ⟨e1, v1, g1, g2, _⟩ := project_getElem func comps first2 outs h1 i c hc
  exact ⟨e1, v1, g1, g2⟩

theorem output_sequence_of_ok {α β γ : Type} (comps : List α) (first2 : Iter β) (dest : List γ)
    (res_it : Nat) (func : α → β → Except Err γ) (r : Nat)
    (h : (detail.produce_output comps first2 dest res_it func).2 = .ok r) :
    ∃ outs, project func comps first2 = .ok outs ∧ outs.length = comps.length ∧
      output_sequence (detail.produce_output comps first2 dest res_it func) res_it comps.length
        = outs := by
  obtain ⟨outs, h1, h2, h3, _⟩ := project_of_transform func comps first2 dest res_it
    (detail.produce_output comps first2 dest res_it func).1 r (Prod.ext rfl h)
  have hlen := project_length func comps first2 outs h1
  refine ⟨outs, h1, hlen, ?_⟩
  unfold output_sequence
  rw [h3, ← hlen]
  apply take_drop_written
  intro h0
  rw [hlen]
  apply h2
  intro hc
  rw [hc] at hlen
  exact h0 (List.length_eq_zero.mp hlen)

/-! ## Lemmas on the formulas -/

theorem isNullOutput_null_output {R : Type} [Zero R] (sym : Bool) (id : Int) (width : Nat) :
    IsNullOutput (null_output sym id width : OutputRecord R sym) := by
  refine ⟨rfl, ?_⟩
  intro v hv
  exact (List.mem_replicate.mp hv).2

theorem node_func_null {R D : Type} [Zero R] (sym : Bool) (math_output : List (MathOutput D sym))
    (node : Node R D) (math_id : Idx2D) (h : math_id.group = -1) :
    node_func sym math_output node math_id = .ok (node.get_null_output sym) := by
  simp [node_func, h]

theorem branch_func_null {R D : Type} [Zero R] (sym : Bool)
    (math_output : List (MathOutput D sym)) (branch : Branch R D) (math_id : Idx2D)
    (h : math_id.group = -1) :
    branch_func sym math_output branch math_id = .ok (branch.get_null_output sym) := by
  simp [branch_func, h]

theorem branch3_func_null {R D : Type} [Zero R] (sym : Bool)
    (math_output : List (MathOutput D sym)) (branch3 : Branch3 R D) (math_id : Idx2DBranch3)
    (h : math_id.group = -1) :
    branch3_func sym math_output branch3 math_id = .ok (branch3.get_null_output sym) := by
  simp [branch3_func, h]

theorem source_func_null {R D : Type} [Zero R] (sym : Bool)
    (math_output : List (MathOutput D sym)) (source : Source R D) (math_id : Idx2D)
    (h : math_id.group = -1) :
    source_func sym math_output source math_id = .ok (source.get_null_output sym) := by
  simp [source_func, h]

theorem load_gen_func_null {R D : Type} [Zero R] (sym : Bool)
    (math_output : List (MathOutput D sym)) (load_gen : GenericLoadGen R D) (math_id : Idx2D)
    (h : math_id.group = -1) :
    load_gen_func sym math_output load_gen math_id = .ok (load_gen.get_null_output sym) := by
  simp [load_gen_func, h]

theorem shunt_func_null {R D : Type} [Zero R] (sym : Bool)
    (math_output : List (MathOutput D sym)) (shunt : Shunt R D) (math_id : Idx2D)
    (h : math_id.group = -1) :
    shunt_func sym math_output shunt math_id = .ok (shunt.get_null_output sym) := by
  simp [shunt_func, h]

theorem node_func_connected {R D : Type} [Zero R] (sym : Bool)
    (math_output : List (MathOutput D sym)) (node : Node R D) (g p : Int) (G : MathOutput D sym)
    (u bus_injection : ComplexValue D sym) (hg : g ≠ -1) (hG : subscript math_output g = .ok G)
    (hu : subscript G.u p = .ok u) (hs : subscript G.bus_injection p = .ok bus_injection) :
    node_func sym math_output node ⟨g, p⟩ = .ok (node.get_output sym u bus_injection) := by
  simp [node_func, hg, bind, Except.bind, hG, hu, hs]

theorem branch_func_connected {R D : Type} [Zero R] (sym : Bool)
    (math_output : List (MathOutput D sym)) (branch : Branch R D) (g p : Int)
    (G : MathOutput D sym) (b : BranchMathOutput D sym) (hg : g ≠ -1)
    (hG : subscript math_output g = .ok G) (hb : subscript G.branch p = .ok b) :
    branch_func sym math_output branch ⟨g, p⟩ = .ok (branch.get_output sym b) := by
  simp [branch_func, hg, bind, Except.bind, hG, hb]

theorem branch3_func_connected {R D : Type} [Zero R] (sym : Bool)
    (math_output : List (MathOutput D sym)) (branch3 : Branch3 R D) (math_id : Idx2DBranch3)
    (G : MathOutput D sym) (b0 b1 b2 : BranchMathOutput D sym) (hg : math_id.group ≠ -1)
    (hG : subscript math_output math_id.group = .ok G)
    (h0 : subscript G.branch (math_id.pos 0) = .ok b0)
    (h1 : subscript G.branch (math_id.pos 1) = .ok b1)
    (h2 : subscript G.branch (math_id.pos 2) = .ok b2) :
    branch3_func sym math_output branch3 math_id = .ok (branch3.get_output sym b0 b1 b2) := by
  simp [branch3_func, hg, bind, Except.bind, hG, h0, h1, h2]

theorem source_func_connected {R D : Type} [Zero R] (sym : Bool)
    (math_output : List (MathOutput D sym)) (source : Source R D) (g p : Int)
    (G : MathOutput D sym) (a : ApplianceMathOutput D sym) (hg : g ≠ -1)
    (hG : subscript math_output g = .ok G) (ha : subscript G.source p = .ok a) :
    source_func sym math_output source ⟨g, p⟩ = .ok (source.get_output sym a) := by
  simp [source_func, hg, bind, Except.bind, hG, ha]

theorem load_gen_func_connected {R D : Type} [Zero R] (sym : Bool)
    (math_output : List (MathOutput D sym)) (load_gen : GenericLoadGen R D) (g p : Int)
    (G : MathOutput D sym) (a : ApplianceMathOutput D sym) (hg : g ≠ -1)
    (hG : subscript math_output g = .ok G) (ha : subscript G.load_gen p = .ok a) :
    load_gen_func sym math_output load_gen ⟨g, p⟩ = .ok (load_gen.get_output sym a) := by
  simp [load_gen_func, hg, bind, Except.bind, hG, ha]

theorem shunt_func_connected {R D : Type} [Zero R] (sym : Bool)
    (math_output : List (MathOutput D sym)) (shunt : Shunt R D) (g p : Int)
    (G : MathOutput D sym) (a : ApplianceMathOutput D sym) (hg : g ≠ -1)
    (hG : subscript math_output g = .ok G) (ha : subscript G.shunt p = .ok a) :
    shunt_func sym math_output shunt ⟨g, p⟩ = .ok (shunt.get_output sym a) := by
  simp [shunt_func, hg, bind, Except.bind, hG, ha]

theorem power_sensor_func_null {R D : Type} [Zero R] (name : String) (sym : Bool)
    (state : MainModelState R D) (math_output : List (MathOutput D sym))
    (power_sensor : GenericPowerSensor R D) (obj_seq : Int) (obj_math_id : Idx2D)
    (h : power_sensor_obj_math_id name state power_sensor.get_terminal_type obj_seq
      = .ok obj_math_id)
    (hg : obj_math_id.group = -1) :
    power_sensor_func name sym state math_output power_sensor obj_seq
      = .ok (power_sensor.get_null_output sym) := by
  simp [power_sensor_func, h, hg, bind, Except.bind]

theorem power_sensor_func_connected {R D : Type} [Zero R] (name : String) (sym : Bool)
    (state : MainModelState R D) (math_output : List (MathOutput D sym))
    (power_sensor : GenericPowerSensor R D) (obj_seq : Int) (obj_math_id : Idx2D)
    (h : power_sensor_obj_math_id name state power_sensor.get_terminal_type obj_seq
      = .ok obj_math_id)
    (hg : obj_math_id.group ≠ -1) :
    power_sensor_func name sym state math_output power_sensor obj_seq
      = power_sensor_select name sym math_output power_sensor power_sensor.get_terminal_type
          obj_math_id := by
  simp [power_sensor_func, h, hg, bind, Except.bind]

theorem voltage_sensor_func_null {R D : Type} [Zero R] (sym : Bool) (state : MainModelState R D)
    (math_output : List (MathOutput D sym)) (voltage_sensor : GenericVoltageSensor R D)
    (node_seq : Int) (node_math_id : Idx2D)
    (hn : subscript state.comp_coup.node node_seq = .ok node_math_id)
    (hg : node_math_id.group = -1) :
    voltage_sensor_func sym state math_output voltage_sensor node_seq
      = .ok (voltage_sensor.get_null_output sym) := by
  simp [voltage_sensor_func, hn, hg, bind, Except.bind]

theorem voltage_sensor_func_connected {R D : Type} [Zero R] (sym : Bool)
    (state : MainModelState R D) (math_output : List (MathOutput D sym))
    (voltage_sensor : GenericVoltageSensor R D) (node_seq : Int) (node_math_id : Idx2D)
    (G : MathOutput D sym) (u : ComplexValue D sym)
    (hn : subscript state.comp_coup.node node_seq = .ok node_math_id)
    (hg : node_math_id.group ≠ -1) (hG : subscript math_output node_math_id.group = .ok G)
    (hu : subscript G.u node_math_id.pos = .ok u) :
    voltage_sensor_func sym state math_output voltage_sensor node_seq
      = .ok (voltage_sensor.get_output sym u) := by
  simp [voltage_sensor_func, hn, hg, hG, hu, bind, Except.bind]

theorem subscript_error {α : Type} (xs : List α) (i : Int) (err : Err)
    (h : subscript xs i = .error err) : err = .out_of_range := by
  unfold subscript at h
  split at h
  · split at h
    · simp at h
    · simpa using h.symm
  · simpa using h.symm

theorem bind_error {α β : Type} (x : Except Err α) (f : α → Except Err β) (err : Err)
    (h : (x >>= f) = .error err) : x = .error err ∨ ∃ a, x = .ok a ∧ f a = .error err := by
  cases x with
  | error e => left; simpa [bind, Except.bind] using h
  | ok a => right; exact ⟨a, rfl, by simpa [bind, Except.bind] using h⟩

theorem power_sensor_func_unrecognized {R D : Type} [Zero R] (name : String) (sym : Bool)
    (state : MainModelState R D) (math_output : List (MathOutput D sym))
    (power_sensor : GenericPowerSensor R D) (obj_seq : Int)
    (h : power_sensor.get_terminal_type ∉ recognized_terminal_types) :
    power_sensor_func name sym state math_output power_sensor obj_seq
      = .error (.MissingCaseForEnumError (name ++ " output_result()")
          power_sensor.get_terminal_type) := by
  cases ht : power_sensor.get_terminal_type <;>
    simp [recognized_terminal_types, ht] at h
  simp [power_sensor_func, power_sensor_obj_math_id, ht, bind, Except.bind]

theorem power_sensor_select_error {R D : Type} (name : String) (sym : Bool)
    (math_output : List (MathOutput D sym)) (power_sensor : GenericPowerSensor R D)
    (t : MeasuredTerminalType) (obj_math_id : Idx2D) (err : Err)
    (ht : t ∈ recognized_terminal_types)
    (h : power_sensor_select name sym math_output power_sensor t obj_math_id = .error err) :
    err = .out_of_range := by
  cases t <;> simp [recognized_terminal_types] at ht <;>
  · simp only [power_sensor_select] at h
    rcases bind_error _ _ _ h with h1 | ⟨G, _, h1⟩
    · exact subscript_error _ _ _ h1
    · rcases bind_error _ _ _ h1 with h2 | ⟨b, _, h2⟩
      · exact subscript_error _ _ _ h2
      · simp at h2

theorem power_sensor_obj_math_id_error {R D : Type} (name : String)
    (state : MainModelState R D) (t : MeasuredTerminalType) (obj_seq : Int) (err : Err)
    (ht : t ∈ recognized_terminal_types)
    (h : power_sensor_obj_math_id name state t obj_seq = .error err) :
    err = .out_of_range := by
  cases t <;> simp [recognized_terminal_types] at ht <;>
    simp only [power_sensor_obj_math_id] at h <;>
    first
    | exact subscript_error _ _ _ h
    | (rcases bind_error _ _ _ h with h1 | ⟨e, _, h1⟩
       · exact subscript_error _ _ _ h1
       · simp at h1)

theorem power_sensor_func_missing_case {R D : Type} [Zero R] (name : String) (sym : Bool)
    (state : MainModelState R D) (math_output : List (MathOutput D sym))
    (power_sensor : GenericPowerSensor R D) (obj_seq : Int) (m : String)
    (t : MeasuredTerminalType)
    (h : power_sensor_func name sym state math_output power_sensor obj_seq
      = .error (.MissingCaseForEnumError m t)) :
    m = name ++ " output_result()" ∧ t = power_sensor.get_terminal_type ∧
      t ∉ recognized_terminal_types := by
  by_cases hr : power_sensor.get_terminal_type ∈ recognized_terminal_types
  · exfalso
    simp only [power_sensor_func] at h
    rcases bind_error _ _ _ h with h1 | ⟨e, _, h1⟩
    · have := power_sensor_obj_math_id_error name state _ obj_seq _ hr h1
      simp at this
    · split at h1
      · simp at h1
      · have := power_sensor_select_error name sym math_output power_sensor _ e _ hr h1
        simp at this
  · rw [power_sensor_func_unrecognized name sym state math_output power_sensor obj_seq hr] at h
    simp only [Except.error.injEq, Err.MissingCaseForEnumError.injEq] at h
    exact ⟨h.1.symm, h.2.symm, h.2 ▸ hr⟩

/-! ## Claims -/

/-- C2: for any component sequence of length n, any slice start and any
formula that is defined on the n pairs (component i, slice entry i), and a
destination with room for n records, produce_output writes exactly n records,
the i-th one being the formula applied to the i-th component and the i-th
slice entry, leaves every other position of the destination as it was, and
returns the destination iterator advanced by n. -/
theorem produce_output_writes_in_order {α β γ : Type} (comps : List α) (first2 : Iter β)
    (dest : List γ) (res_it : Nat) (func : α → β → Except Err γ) (out : Nat → γ)
    (h_formula : ∀ (i : Nat) (c : α), comps[i]? = some c →
      ∃ e, first2.base[first2.pos + i]? = some e ∧ func c e = .ok (out i))
    (h_room : res_it + comps.length ≤ dest.length) :
    ∃ dest1, detail.produce_output comps first2 dest res_it func
        = (dest1, .ok (res_it + comps.length)) ∧
      dest1.length = dest.length ∧
      (∀ i, i < comps.length → dest1[res_it + i]? = some (out i)) ∧
      (∀ j, j < res_it ∨ res_it + comps.length ≤ j → dest1[j]? = dest[j]?) := by
  have hp := project_of_pointwise func comps first2 out h_formula
  have hlen : ((List.range comps.length).map out).length = comps.length := by simp
  refine ⟨written dest res_it ((List.range comps.length).map out), ?_, ?_, ?_, ?_⟩
  · exact transform_of_project func comps first2 dest res_it _ hp h_room
  · exact length_written dest res_it _ (by omega)
  · intro i hi
    rw [getElem?_written_mid dest res_it _ (by omega) i (by omega)]
    simp [List.getElem?_map, List.getElem?_range hi]
  · intro j hj
    exact getElem?_written_out dest res_it _ (by omega) j (by omega)

/-- Witness of C2: the three nodes of the demo grid, written from position 1 of
a buffer of five records. -/
theorem produce_output_writes_in_order_witness :
    ∃ dest1, detail.produce_output demo.state.components.node
        (detail.comp_base_sequence_cbegin_node demo.state)
        (List.replicate 5 demo.blank) 1 (node_func true demo.math_output)
        = (dest1, .ok (1 + 3)) ∧
      dest1.length = 5 ∧
      (∀ i, i < 3 → dest1[1 + i]? =
        some ([demo.record 1 true [100, 200], demo.record 2 true [101, 201],
          demo.record 3 false [0, 0]].getD i demo.blank)) ∧
      (∀ j, j < 1 ∨ 1 + 3 ≤ j → dest1[j]? = (List.replicate 5 demo.blank)[j]?) :=
  produce_output_writes_in_order demo.state.components.node
    (detail.comp_base_sequence_cbegin_node demo.state) (List.replicate 5 demo.blank) 1
    (node_func true demo.math_output)
    (fun i => [demo.record 1 true [100, 200], demo.record 2 true [101, 201],
      demo.record 3 false [0, 0]].getD i demo.blank)
    (by
      intro i c hc
      match i, hc with
      | 0, hc => exact ⟨⟨0, 0⟩, rfl, by cases hc; rfl⟩
      | 1, hc => exact ⟨⟨0, 1⟩, rfl, by cases hc; rfl⟩
      | 2, hc => exact ⟨⟨-1, -1⟩, rfl, by cases hc; rfl⟩
      | (k + 3), hc => exact absurd hc (by simp [demo.state, demo.components]))
    (by decide)

/-- C1: in either mode and for every math output (also the empty one), a Node,
Branch, Branch3, Source, GenericLoadGen or Shunt component whose coupling entry
has group -1 gets its null output from the formula (the result does not
depend on the math output, which is not subscripted), the null output is not
energized and has every value field zero, and whenever the projection of the
component's sequence completes, the record at the component's output position
is that null output. -/
theorem disconnected_component_yields_null_output {R D : Type} [Zero R] (sym : Bool)
    (math_output : List (MathOutput D sym)) (state : MainModelState R D)
    (dest : List (OutputRecord R sym)) (res_it i : Nat) :
    (∀ (node : Node R D) (math_id : Idx2D),
      state.components.node[i]? = some node →
      (detail.comp_base_sequence_cbegin_node state).base[
        (detail.comp_base_sequence_cbegin_node state).pos + i]? = some math_id →
      math_id.group = -1 →
      node_func sym math_output node math_id = .ok (node.get_null_output sym) ∧
      IsNullOutput (node.get_null_output sym) ∧
      Yields (output_result_node sym state math_output dest res_it) res_it i
        (node.get_null_output sym)) ∧
    (∀ (sel : Sel) (branch : Branch R D) (math_id : Idx2D),
      (citer state.components.branch sel)[i]? = some branch →
      (detail.comp_base_sequence_cbegin_branch state sel).base[
        (detail.comp_base_sequence_cbegin_branch state sel).pos + i]? = some math_id →
      math_id.group = -1 →
      branch_func sym math_output branch math_id = .ok (branch.get_null_output sym) ∧
      IsNullOutput (branch.get_null_output sym) ∧
      Yields (output_result_branch sym sel state math_output dest res_it) res_it i
        (branch.get_null_output sym)) ∧
    (∀ (sel : Sel) (branch3 : Branch3 R D) (math_id : Idx2DBranch3),
      (citer state.components.branch3 sel)[i]? = some branch3 →
      (detail.comp_base_sequence_cbegin_branch3 state sel).base[
        (detail.comp_base_sequence_cbegin_branch3 state sel).pos + i]? = some math_id →
      math_id.group = -1 →
      branch3_func sym math_output branch3 math_id = .ok (branch3.get_null_output sym) ∧
      IsNullOutput (branch3.get_null_output sym) ∧
      Yields (output_result_branch3 sym sel state math_output dest res_it) res_it i
        (branch3.get_null_output sym)) ∧
    (∀ (source : Source R D) (math_id : Idx2D),
      state.components.source[i]? = some source →
      (detail.comp_base_sequence_cbegin_source state).base[
        (detail.comp_base_sequence_cbegin_source state).pos + i]? = some math_id →
      math_id.group = -1 →
      source_func sym math_output source math_id = .ok (source.get_null_output sym) ∧
      IsNullOutput (source.get_null_output sym) ∧
      Yields (output_result_source sym state math_output dest res_it) res_it i
        (source.get_null_output sym)) ∧
    (∀ (sel : Sel) (load_gen : GenericLoadGen R D) (math_id : Idx2D),
      (citer state.components.load_gen sel)[i]? = some load_gen →
      (detail.comp_base_sequence_cbegin_load_gen state sel).base[
        (detail.comp_base_sequence_cbegin_load_gen state sel).pos + i]? = some math_id →
      math_id.group = -1 →
      load_gen_func sym math_output load_gen math_id = .ok (load_gen.get_null_output sym) ∧
      IsNullOutput (load_gen.get_null_output sym) ∧
      Yields (output_result_load_gen sym sel state math_output dest res_it) res_it i
        (load_gen.get_null_output sym)) ∧
    (∀ (shunt : Shunt R D) (math_id : Idx2D),
      state.components.shunt[i]? = some shunt →
      (detail.comp_base_sequence_cbegin_shunt state).base[
        (detail.comp_base_sequence_cbegin_shunt state).pos + i]? = some math_id →
      math_id.group = -1 →
      shunt_func sym math_output shunt math_id = .ok (shunt.get_null_output sym) ∧
      IsNullOutput (shunt.get_null_output sym) ∧
      Yields (output_result_shunt sym state math_output dest res_it) res_it i
        (shunt.get_null_output sym)) := by
  refine ⟨?_, ?_, ?_, ?_, ?_, ?_⟩
  · intro node math_id hc he hg
    exact ⟨node_func_null sym math_output node math_id hg, isNullOutput_null_output _ _ _,
      produce_output_yields _ _ dest res_it _ i node math_id _ hc he
        (node_func_null sym math_output node math_id hg)⟩
  · intro sel branch math_id hc he hg
    exact ⟨branch_func_null sym math_output branch math_id hg, isNullOutput_null_output _ _ _,
      produce_output_yields _ _ dest res_it _ i branch math_id _ hc he
        (branch_func_null sym math_output branch math_id hg)⟩
  · intro sel branch3 math_id hc he hg
    exact ⟨branch3_func_null sym math_output branch3 math_id hg, isNullOutput_null_output _ _ _,
      produce_output_yields _ _ dest res_it _ i branch3 math_id _ hc he
        (branch3_func_null sym math_output branch3 math_id hg)⟩
  · intro source math_id hc he hg
    exact ⟨source_func_null sym math_output source math_id hg, isNullOutput_null_output _ _ _,
      produce_output_yields _ _ dest res_it _ i source math_id _ hc he
        (source_func_null sym math_output source math_id hg)⟩
  · intro sel load_gen math_id hc he hg
    exact ⟨load_gen_func_null sym math_output load_gen math_id hg,
      isNullOutput_null_output _ _ _,
      produce_output_yields _ _ dest res_it _ i load_gen math_id _ hc he
        (load_gen_func_null sym math_output load_gen math_id hg)⟩
  · intro shunt math_id hc he hg
    exact ⟨shunt_func_null sym math_output shunt math_id hg, isNullOutput_null_output _ _ _,
      produce_output_yields _ _ dest res_it _ i shunt math_id _ hc he
        (shunt_func_null sym math_output shunt math_id hg)⟩

/-- Witness of C1: with an empty math output, the disconnected generator 10 of
the demo grid (the only instance of the second load_gen subtype) gets its null
output, and the projection of that subtype completes. -/
theorem disconnected_component_yields_null_output_witness :
    load_gen_func true ([] : List (MathOutput Int true)) (demo.appliance 10) ⟨-1, -1⟩
        = .ok (demo.record 10 false [0]) ∧
      IsNullOutput ((demo.appliance 10).get_null_output true) ∧
      Yields (output_result_load_gen true (.sub 1) demo.state [] [demo.blank] 0) 0 0
        ((demo.appliance 10).get_null_output true) ∧
      output_result_load_gen true (.sub 1) demo.state [] [demo.blank] 0
        = ([demo.record 10 false [0]], .ok 1) :=
  ⟨((disconnected_component_yields_null_output true [] demo.state [demo.blank] 0 0).2.2.2.2.1
      (.sub 1) (demo.appliance 10) ⟨-1, -1⟩ rfl rfl rfl).1,
    ((disconnected_component_yields_null_output true [] demo.state [demo.blank] 0 0).2.2.2.2.1
      (.sub 1) (demo.appliance 10) ⟨-1, -1⟩ rfl rfl rfl).2.1,
    ((disconnected_component_yields_null_output true [] demo.state [demo.blank] 0 0).2.2.2.2.1
      (.sub 1) (demo.appliance 10) ⟨-1, -1⟩ rfl rfl rfl).2.2,
    rfl⟩

/-- C9: for a connected component, with coupling entry (g, p), g not -1, and
G = math_output[g]: a Node outputs get_output(G.u[p], G.bus_injection[p]), a
Branch get_output(G.branch[p]), a Source get_output(G.source[p]), a
GenericLoadGen get_output(G.load_gen[p]) and a Shunt get_output(G.shunt[p]);
no other array, group or position enters the result. That is the value of the
formula, and the record at the component's output position whenever the
projection of its sequence completes. -/
theorem connected_component_reads_own_entry {R D : Type} [Zero R] (sym : Bool)
    (math_output : List (MathOutput D sym)) (state : MainModelState R D)
    (dest : List (OutputRecord R sym)) (res_it i : Nat) (g p : Int) (G : MathOutput D sym)
    (hg : g ≠ -1) (hG : subscript math_output g = .ok G) :
    (∀ (node : Node R D) (u bus_injection : ComplexValue D sym),
      state.components.node[i]? = some node →
      (detail.comp_base_sequence_cbegin_node state).base[
        (detail.comp_base_sequence_cbegin_node state).pos + i]? = some ⟨g, p⟩ →
      subscript G.u p = .ok u → subscript G.bus_injection p = .ok bus_injection →
      node_func sym math_output node ⟨g, p⟩ = .ok (node.get_output sym u bus_injection) ∧
      Yields (output_result_node sym state math_output dest res_it) res_it i
        (node.get_output sym u bus_injection)) ∧
    (∀ (sel : Sel) (branch : Branch R D) (b : BranchMathOutput D sym),
      (citer state.components.branch sel)[i]? = some branch →
      (detail.comp_base_sequence_cbegin_branch state sel).base[
        (detail.comp_base_sequence_cbegin_branch state sel).pos + i]? = some ⟨g, p⟩ →
      subscript G.branch p = .ok b →
      branch_func sym math_output branch ⟨g, p⟩ = .ok (branch.get_output sym b) ∧
      Yields (output_result_branch sym sel state math_output dest res_it) res_it i
        (branch.get_output sym b)) ∧
    (∀ (source : Source R D) (a : ApplianceMathOutput D sym),
      state.components.source[i]? = some source →
      (detail.comp_base_sequence_cbegin_source state).base[
        (detail.comp_base_sequence_cbegin_source state).pos + i]? = some ⟨g, p⟩ →
      subscript G.source p = .ok a →
      source_func sym math_output source ⟨g, p⟩ = .ok (source.get_output sym a) ∧
      Yields (output_result_source sym state math_output dest res_it) res_it i
        (source.get_output sym a)) ∧
    (∀ (sel : Sel) (load_gen : GenericLoadGen R D) (a : ApplianceMathOutput D sym),
      (citer state.components.load_gen sel)[i]? = some load_gen →
      (detail.comp_base_sequence_cbegin_load_gen state sel).base[
        (detail.comp_base_sequence_cbegin_load_gen state sel).pos + i]? = some ⟨g, p⟩ →
      subscript G.load_gen p = .ok a →
      load_gen_func sym math_output load_gen ⟨g, p⟩ = .ok (load_gen.get_output sym a) ∧
      Yields (output_result_load_gen sym sel state math_output dest res_it) res_it i
        (load_gen.get_output sym a)) ∧
    (∀ (shunt : Shunt R D) (a : ApplianceMathOutput D sym),
      state.components.shunt[i]? = some shunt →
      (detail.comp_base_sequence_cbegin_shunt state).base[
        (detail.comp_base_sequence_cbegin_shunt state).pos + i]? = some ⟨g, p⟩ →
      subscript G.shunt p = .ok a →
      shunt_func sym math_output shunt ⟨g, p⟩ = .ok (shunt.get_output sym a) ∧
      Yields (output_result_shunt sym state math_output dest res_it) res_it i
        (shunt.get_output sym a)) := by
  refine ⟨?_, ?_, ?_, ?_, ?_⟩
  · intro node u bus_injection hc he hu hs
    have hf := node_func_connected sym math_output node g p G u bus_injection hg hG hu hs
    exact ⟨hf, produce_output_yields _ _ dest res_it _ i node ⟨g, p⟩ _ hc he hf⟩
  · intro sel branch b hc he hb
    have hf := branch_func_connected sym math_output branch g p G b hg hG hb
    exact ⟨hf, produce_output_yields _ _ dest res_it _ i branch ⟨g, p⟩ _ hc he hf⟩
  · intro source a hc he ha
    have hf := source_func_connected sym math_output source g p G a hg hG ha
    exact ⟨hf, produce_output_yields _ _ dest res_it _ i source ⟨g, p⟩ _ hc he hf⟩
  · intro sel load_gen a hc he ha
    have hf := load_gen_func_connected sym math_output load_gen g p G a hg hG ha
    exact ⟨hf, produce_output_yields _ _ dest res_it _ i load_gen ⟨g, p⟩ _ hc he hf⟩
  · intro shunt a hc he ha
    have hf := shunt_func_connected sym math_output shunt g p G a hg hG ha
    exact ⟨hf, produce_output_yields _ _ dest res_it _ i shunt ⟨g, p⟩ _ hc he hf⟩

/-- Witness of C9: node 2 of the demo grid, coupled to bus 1 of group 0. -/
theorem connected_component_reads_own_entry_witness :
    node_func true demo.math_output (demo.node 2) ⟨0, 1⟩
        = .ok (demo.record 2 true [101, 201]) ∧
      Yields (output_result_node true demo.state demo.math_output
        (List.replicate 3 demo.blank) 0) 0 1 (demo.record 2 true [101, 201]) ∧
      output_result_node true demo.state demo.math_output (List.replicate 3 demo.blank) 0
        = ([demo.record 1 true [100, 200], demo.record 2 true [101, 201],
            demo.record 3 false [0, 0]], .ok 3) :=
  ⟨((connected_component_reads_own_entry true demo.math_output demo.state
      (List.replicate 3 demo.blank) 0 1 0 1 demo.group0 (by decide) rfl).1
      (demo.node 2) (demo.cv 101) (demo.cv 201) rfl rfl rfl rfl).1,
    ((connected_component_reads_own_entry true demo.math_output demo.state
      (List.replicate 3 demo.blank) 0 1 0 1 demo.group0 (by decide) rfl).1
      (demo.node 2) (demo.cv 101) (demo.cv 201) rfl rfl rfl rfl).2,
    rfl⟩

/-- C10: for a connected Branch3 component, with coupling entry of group g,
not -1, and positions pos[0], pos[1], pos[2], and G = math_output[g], the
output is get_output(G.branch[pos[0]], G.branch[pos[1]], G.branch[pos[2]]):
the three flows come from the one group g and are passed in winding order.
That is the value of the formula, and the record at the component's output
position whenever the projection of its sequence completes. -/
theorem branch3_reads_three_legs_of_own_group {R D : Type} [Zero R] (sym : Bool)
    (math_output : List (MathOutput D sym)) (state : MainModelState R D) (sel : Sel)
    (dest : List (OutputRecord R sym)) (res_it i : Nat) (branch3 : Branch3 R D)
    (math_id : Idx2DBranch3) (G : MathOutput D sym) (b0 b1 b2 : BranchMathOutput D sym)
    (hc : (citer state.components.branch3 sel)[i]? = some branch3)
    (he : (detail.comp_base_sequence_cbegin_branch3 state sel).base[
      (detail.comp_base_sequence_cbegin_branch3 state sel).pos + i]? = some math_id)
    (hg : math_id.group ≠ -1)
    (hG : subscript math_output math_id.group = .ok G)
    (h0 : subscript G.branch (math_id.pos 0) = .ok b0)
    (h1 : subscript G.branch (math_id.pos 1) = .ok b1)
    (h2 : subscript G.branch (math_id.pos 2) = .ok b2) :
    branch3_func sym math_output branch3 math_id = .ok (branch3.get_output sym b0 b1 b2) ∧
    Yields (output_result_branch3 sym sel state math_output dest res_it) res_it i
      (branch3.get_output sym b0 b1 b2) := by
  have hf := branch3_func_connected sym math_output branch3 math_id G b0 b1 b2 hg hG h0 h1 h2
  exact ⟨hf, produce_output_yields _ _ dest res_it _ i branch3 math_id _ hc he hf⟩

/-- Witness of C10: the three-winding transformer 7 of the demo grid, whose
legs are the branches 2, 3 and 4 of group 0. -/
theorem branch3_reads_three_legs_of_own_group_witness :
    branch3_func true demo.math_output (demo.branch3 7) ⟨0, ![2, 3, 4]⟩
        = .ok (demo.record 7 true [12, 13, 14]) ∧
      Yields (output_result_branch3 true .base demo.state demo.math_output [demo.blank] 0) 0 0
        (demo.record 7 true [12, 13, 14]) ∧
      output_result_branch3 true .base demo.state demo.math_output [demo.blank] 0
        = ([demo.record 7 true [12, 13, 14]], .ok 1) :=
  ⟨(branch3_reads_three_legs_of_own_group true demo.math_output demo.state .base [demo.blank]
      0 0 (demo.branch3 7) ⟨0, ![2, 3, 4]⟩ demo.group0 (demo.flow 12) (demo.flow 13)
      (demo.flow 14) rfl rfl (by decide) rfl rfl rfl rfl).1,
    (branch3_reads_three_legs_of_own_group true demo.math_output demo.state .base [demo.blank]
      0 0 (demo.branch3 7) ⟨0, ![2, 3, 4]⟩ demo.group0 (demo.flow 12) (demo.flow 13)
      (demo.flow 14) rfl rfl (by decide) rfl rfl rfl rfl).2,
    rfl⟩

/-- C3: for a power sensor whose measured object, at index obj_seq, has the
coupling entry (g, p) with g not -1, and G = math_output[g], the formula
returns get_output applied to G.branch[p].s_f for branch_from, to
G.branch[p].s_t for branch_to, to G.source[p].s for source, to G.shunt[p].s
for shunt, to G.load_gen[p].s for load and generator, and to
G.bus_injection[p] for node, the entry (g, p) being read at obj_seq from the
branch, source, shunt, load_gen and node coupling table respectively; and the
value of the formula is the record at the sensor's output position whenever the
projection completes. -/
theorem power_sensor_selects_quantity_of_terminal {R D : Type} [Zero R] (name : String)
    (sym : Bool) (math_output : List (MathOutput D sym)) (state : MainModelState R D)
    (sel : Sel) (dest : List (OutputRecord R sym)) (res_it i : Nat)
    (power_sensor : GenericPowerSensor R D) (obj_seq g p : Int) (G : MathOutput D sym)
    (hc : (citer state.components.power_sensor sel)[i]? = some power_sensor)
    (he : state.comp_topo.power_sensor_object_idx[
      detail.comp_sequence_offset state.components.power_sensor sel + i]? = some obj_seq)
    (hg : g ≠ -1) (hG : subscript math_output g = .ok G) :
    (∀ v, power_sensor_func name sym state math_output power_sensor obj_seq = .ok v →
      Yields (output_result_power_sensor name sym sel state math_output dest res_it)
        res_it i v) ∧
    (power_sensor.get_terminal_type = .branch_from →
      subscript state.comp_coup.branch obj_seq = .ok ⟨g, p⟩ →
      ∀ b, subscript G.branch p = .ok b →
        power_sensor_func name sym state math_output power_sensor obj_seq
          = .ok (power_sensor.get_output sym b.s_f)) ∧
    (power_sensor.get_terminal_type = .branch_to →
      subscript state.comp_coup.branch obj_seq = .ok ⟨g, p⟩ →
      ∀ b, subscript G.branch p = .ok b →
        power_sensor_func name sym state math_output power_sensor obj_seq
          = .ok (power_sensor.get_output sym b.s_t)) ∧
    (power_sensor.get_terminal_type = .source →
      subscript state.comp_coup.source obj_seq = .ok ⟨g, p⟩ →
      ∀ a, subscript G.source p = .ok a →
        power_sensor_func name sym state math_output power_sensor obj_seq
          = .ok (power_sensor.get_output sym a.s)) ∧
    (power_sensor.get_terminal_type = .shunt →
      subscript state.comp_coup.shunt obj_seq = .ok ⟨g, p⟩ →
      ∀ a, subscript G.shunt p = .ok a →
        power_sensor_func name sym state math_output power_sensor obj_seq
          = .ok (power_sensor.get_output sym a.s)) ∧
    (power_sensor.get_terminal_type = .load ∨ power_sensor.get_terminal_type = .generator →
      subscript state.comp_coup.load_gen obj_seq = .ok ⟨g, p⟩ →
      ∀ a, subscript G.load_gen p = .ok a →
        power_sensor_func name sym state math_output power_sensor obj_seq
          = .ok (power_sensor.get_output sym a.s)) ∧
    (power_sensor.get_terminal_type = .node →
      subscript state.comp_coup.node obj_seq = .ok ⟨g, p⟩ →
      ∀ s, subscript G.bus_injection p = .ok s →
        power_sensor_func name sym state math_output power_sensor obj_seq
          = .ok (power_sensor.get_output sym s)) := by
  refine ⟨?_, ?_, ?_, ?_, ?_, ?_, ?_⟩
  · intro v hv
    exact produce_output_yields _ _ dest res_it _ i power_sensor obj_seq v hc he hv
  · intro ht htab b hb
    rw [power_sensor_func_connected name sym state math_output power_sensor obj_seq ⟨g, p⟩
      (by simp [power_sensor_obj_math_id, ht, htab]) hg]
    simp [power_sensor_select, ht, hG, hb, bind, Except.bind]
  · intro ht htab b hb
    rw [power_sensor_func_connected name sym state math_output power_sensor obj_seq ⟨g, p⟩
      (by simp [power_sensor_obj_math_id, ht, htab]) hg]
    simp [power_sensor_select, ht, hG, hb, bind, Except.bind]
  · intro ht htab a ha
    rw [power_sensor_func_connected name sym state math_output power_sensor obj_seq ⟨g, p⟩
      (by simp [power_sensor_obj_math_id, ht, htab]) hg]
    simp [power_sensor_select, ht, hG, ha, bind, Except.bind]
  · intro ht htab a ha
    rw [power_sensor_func_connected name sym state math_output power_sensor obj_seq ⟨g, p⟩
      (by simp [power_sensor_obj_math_id, ht, htab]) hg]
    simp [power_sensor_select, ht, hG, ha, bind, Except.bind]
  · intro ht htab a ha
    rcases ht with ht | ht
    · rw [power_sensor_func_connected name sym state math_output power_sensor obj_seq ⟨g, p⟩
        (by simp [power_sensor_obj_math_id, ht, htab]) hg]
      simp [power_sensor_select, ht, hG, ha, bind, Except.bind]
    · rw [power_sensor_func_connected name sym state math_output power_sensor obj_seq ⟨g, p⟩
        (by simp [power_sensor_obj_math_id, ht, htab]) hg]
      simp [power_sensor_select, ht, hG, ha, bind, Except.bind]
  · intro ht htab s hs
    rw [power_sensor_func_connected name sym state math_output power_sensor obj_seq ⟨g, p⟩
      (by simp [power_sensor_obj_math_id, ht, htab]) hg]
    simp [power_sensor_select, ht, hG, hs, bind, Except.bind]

/-- Witness of C3: sensor 15 of the demo grid measures the to-side of branch 1,
the first link, coupled to branch 1 of group 0, whose to-side power is -11. -/
theorem power_sensor_selects_quantity_of_terminal_witness :
    power_sensor_func "generic_power_sensor" true demo.state demo.math_output
        (demo.power_sensor 15 .branch_to) 1 = .ok (demo.record 15 true [-11]) ∧
      Yields (output_result_power_sensor "generic_power_sensor" true .base demo.state
        demo.math_output (List.replicate 5 demo.blank) 0) 0 1 (demo.record 15 true [-11]) ∧
      output_result_power_sensor "generic_power_sensor" true .base demo.state
          demo.math_output (List.replicate 5 demo.blank) 0
        = ([demo.record 14 true [10], demo.record 15 true [-11], demo.record 16 true [13],
            demo.record 17 true [201], demo.record 18 false [0]], .ok 5) :=
  ⟨(power_sensor_selects_quantity_of_terminal "generic_power_sensor" true demo.math_output
      demo.state .base (List.replicate 5 demo.blank) 0 1 (demo.power_sensor 15 .branch_to)
      1 0 1 demo.group0 rfl rfl (by decide) rfl).2.2.1 rfl rfl (demo.flow 11) rfl,
    (power_sensor_selects_quantity_of_terminal "generic_power_sensor" true demo.math_output
      demo.state .base (List.replicate 5 demo.blank) 0 1 (demo.power_sensor 15 .branch_to)
      1 0 1 demo.group0 rfl rfl (by decide) rfl).1 _ rfl,
    rfl⟩

/-- C4: for a power sensor of terminal type branch3_k measuring a connected
three-winding object, whose coupling entry at obj_seq has group g, not -1, and
positions pos[0..2], and G = math_output[g], the formula returns
get_output(G.branch[pos[k-1]].s_f): the from-side flow of leg k in the group
of the three-winding object; and the value of the formula is the record at the
sensor's output position whenever the projection completes. -/
theorem power_sensor_branch3_reads_from_side_of_leg {R D : Type} [Zero R] (name : String)
    (sym : Bool) (math_output : List (MathOutput D sym)) (state : MainModelState R D)
    (sel : Sel) (dest : List (OutputRecord R sym)) (res_it i : Nat)
    (power_sensor : GenericPowerSensor R D) (obj_seq : Int) (math_id : Idx2DBranch3)
    (G : MathOutput D sym)
    (hc : (citer state.components.power_sensor sel)[i]? = some power_sensor)
    (he : state.comp_topo.power_sensor_object_idx[
      detail.comp_sequence_offset state.components.power_sensor sel + i]? = some obj_seq)
    (h3 : subscript state.comp_coup.branch3 obj_seq = .ok math_id)
    (hg : math_id.group ≠ -1) (hG : subscript math_output math_id.group = .ok G) :
    (∀ v, power_sensor_func name sym state math_output power_sensor obj_seq = .ok v →
      Yields (output_result_power_sensor name sym sel state math_output dest res_it)
        res_it i v) ∧
    (power_sensor.get_terminal_type = .branch3_1 →
      ∀ b, subscript G.branch (math_id.pos 0) = .ok b →
        power_sensor_func name sym state math_output power_sensor obj_seq
          = .ok (power_sensor.get_output sym b.s_f)) ∧
    (power_sensor.get_terminal_type = .branch3_2 →
      ∀ b, subscript G.branch (math_id.pos 1) = .ok b →
        power_sensor_func name sym state math_output power_sensor obj_seq
          = .ok (power_sensor.get_output sym b.s_f)) ∧
    (power_sensor.get_terminal_type = .branch3_3 →
      ∀ b, subscript G.branch (math_id.pos 2) = .ok b →
        power_sensor_func name sym state math_output power_sensor obj_seq
          = .ok (power_sensor.get_output sym b.s_f)) := by
  refine ⟨?_, ?_, ?_, ?_⟩
  · intro v hv
    exact produce_output_yields _ _ dest res_it _ i power_sensor obj_seq v hc he hv
  · intro ht b hb
    rw [power_sensor_func_connected name sym state math_output power_sensor obj_seq
      ⟨math_id.group, math_id.pos 0⟩
      (by simp [power_sensor_obj_math_id, ht, h3, bind, Except.bind]) hg]
    simp [power_sensor_select, ht, hG, hb, bind, Except.bind]
  · intro ht b hb
    rw [power_sensor_func_connected name sym state math_output power_sensor obj_seq
      ⟨math_id.group, math_id.pos 1⟩
      (by simp [power_sensor_obj_math_id, ht, h3, bind, Except.bind]) hg]
    simp [power_sensor_select, ht, hG, hb, bind, Except.bind]
  · intro ht b hb
    rw [power_sensor_func_connected name sym state math_output power_sensor obj_seq
      ⟨math_id.group, math_id.pos 2⟩
      (by simp [power_sensor_obj_math_id, ht, h3, bind, Except.bind]) hg]
    simp [power_sensor_select, ht, hG, hb, bind, Except.bind]

/-- Witness of C4: sensor 16 of the demo grid measures leg 2 of the
three-winding transformer, which is branch 3 of group 0 with from-side power
13 and to-side power -13. -/
theorem power_sensor_branch3_reads_from_side_of_leg_witness :
    power_sensor_func "generic_power_sensor" true demo.state demo.math_output
        (demo.power_sensor 16 .branch3_2) 0 = .ok (demo.record 16 true [13]) ∧
      Yields (output_result_power_sensor "generic_power_sensor" true .base demo.state
        demo.math_output (List.replicate 5 demo.blank) 0) 0 2 (demo.record 16 true [13]) :=
  ⟨(power_sensor_branch3_reads_from_side_of_leg "generic_power_sensor" true demo.math_output
      demo.state .base (List.replicate 5 demo.blank) 0 2 (demo.power_sensor 16 .branch3_2)
      0 ⟨0, ![2, 3, 4]⟩ demo.group0 rfl rfl rfl (by decide) rfl).2.2.1 rfl (demo.flow 13) rfl,
    (power_sensor_branch3_reads_from_side_of_leg "generic_power_sensor" true demo.math_output
      demo.state .base (List.replicate 5 demo.blank) 0 2 (demo.power_sensor 16 .branch3_2)
      0 ⟨0, ![2, 3, 4]⟩ demo.group0 rfl rfl rfl (by decide) rfl).1 _ rfl⟩

/-- C7: for a power sensor with a recognized terminal type whose measured
object is disconnected (group -1 in the entry at obj_seq of the table the
terminal type selects: branch for branch_from and branch_to, source, shunt,
load_gen for load and generator, node, and the three-winding table for
branch3_1, branch3_2 and branch3_3), the formula returns the sensor's null
output, for every math output and whatever the positions of the entry are; no
failure is raised, and the null output is the record at the sensor's output
position whenever the projection completes. -/
theorem power_sensor_disconnected_yields_null_output {R D : Type} [Zero R] (name : String)
    (sym : Bool) (math_output : List (MathOutput D sym)) (state : MainModelState R D)
    (sel : Sel) (dest : List (OutputRecord R sym)) (res_it i : Nat)
    (power_sensor : GenericPowerSensor R D) (obj_seq : Int)
    (hc : (citer state.components.power_sensor sel)[i]? = some power_sensor)
    (he : state.comp_topo.power_sensor_object_idx[
      detail.comp_sequence_offset state.components.power_sensor sel + i]? = some obj_seq)
    (h_disconnected :
      (∃ e, (power_sensor.get_terminal_type = .branch_from ∨
          power_sensor.get_terminal_type = .branch_to) ∧
        subscript state.comp_coup.branch obj_seq = .ok e ∧ e.group = -1) ∨
      (∃ e, power_sensor.get_terminal_type = .source ∧
        subscript state.comp_coup.source obj_seq = .ok e ∧ e.group = -1) ∨
      (∃ e, power_sensor.get_terminal_type = .shunt ∧
        subscript state.comp_coup.shunt obj_seq = .ok e ∧ e.group = -1) ∨
      (∃ e, (power_sensor.get_terminal_type = .load ∨
          power_sensor.get_terminal_type = .generator) ∧
        subscript state.comp_coup.load_gen obj_seq = .ok e ∧ e.group = -1) ∨
      (∃ e, power_sensor.get_terminal_type = .node ∧
        subscript state.comp_coup.node obj_seq = .ok e ∧ e.group = -1) ∨
      (∃ e, (power_sensor.get_terminal_type = .branch3_1 ∨
          power_sensor.get_terminal_type = .branch3_2 ∨
          power_sensor.get_terminal_type = .branch3_3) ∧
        subscript state.comp_coup.branch3 obj_seq = .ok e ∧ e.group = -1)) :
    power_sensor_func name sym state math_output power_sensor obj_seq
      = .ok (power_sensor.get_null_output sym) ∧
    Yields (output_result_power_sensor name sym sel state math_output dest res_it) res_it i
      (power_sensor.get_null_output sym) := by
  have hf : power_sensor_func name sym state math_output power_sensor obj_seq
      = .ok (power_sensor.get_null_output sym) := by
    rcases h_disconnected with ⟨e, ht, htab, hg⟩ | ⟨e, ht, htab, hg⟩ | ⟨e, ht, htab, hg⟩ |
      ⟨e, ht, htab, hg⟩ | ⟨e, ht, htab, hg⟩ | ⟨e, ht, htab, hg⟩
    · rcases ht with ht | ht <;>
        exact power_sensor_func_null name sym state math_output power_sensor obj_seq e
          (by simp [power_sensor_obj_math_id, ht, htab]) hg
    · exact power_sensor_func_null name sym state math_output power_sensor obj_seq e
        (by simp [power_sensor_obj_math_id, ht, htab]) hg
    · exact power_sensor_func_null name sym state math_output power_sensor obj_seq e
        (by simp [power_sensor_obj_math_id, ht, htab]) hg
    · rcases ht with ht | ht <;>
        exact power_sensor_func_null name sym state math_output power_sensor obj_seq e
          (by simp [power_sensor_obj_math_id, ht, htab]) hg
    · exact power_sensor_func_null name sym state math_output power_sensor obj_seq e
        (by simp [power_sensor_obj_math_id, ht, htab]) hg
    · rcases ht with ht | ht | ht
      · exact power_sensor_func_null name sym state math_output power_sensor obj_seq
          ⟨e.group, e.pos 0⟩
          (by simp [power_sensor_obj_math_id, ht, htab, bind, Except.bind]) hg
      · exact power_sensor_func_null name sym state math_output power_sensor obj_seq
          ⟨e.group, e.pos 1⟩
          (by simp [power_sensor_obj_math_id, ht, htab, bind, Except.bind]) hg
      · exact power_sensor_func_null name sym state math_output power_sensor obj_seq
          ⟨e.group, e.pos 2⟩
          (by simp [power_sensor_obj_math_id, ht, htab, bind, Except.bind]) hg
  exact ⟨hf, produce_output_yields _ _ dest res_it _ i power_sensor obj_seq _ hc he hf⟩

/-- Witness of C7: sensor 18 of the demo grid measures the disconnected
generator (load_gen index 1, entry (-1, -1)); the math output is empty. -/
theorem power_sensor_disconnected_yields_null_output_witness :
    power_sensor_func "generic_power_sensor" true demo.state
        ([] : List (MathOutput Int true)) (demo.power_sensor 18 .generator) 1
      = .ok (demo.record 18 false [0]) ∧
    Yields (output_result_power_sensor "generic_power_sensor" true .base demo.state
      ([] : List (MathOutput Int true)) (List.replicate 5 demo.blank) 0) 0 4
      ((demo.power_sensor 18 .generator).get_null_output true) :=
  power_sensor_disconnected_yields_null_output "generic_power_sensor" true [] demo.state .base
    (List.replicate 5 demo.blank) 0 4 (demo.power_sensor 18 .generator) 1 rfl rfl
    (Or.inr (Or.inr (Or.inr (Or.inl ⟨⟨-1, -1⟩, Or.inr rfl, rfl, rfl⟩))))

/-- C8: the voltage sensor at position i of its subtype, with node_seq the
entry of voltage_sensor_node_idx at the subtype's offset plus i, is projected
from the node coupling entry at node_seq: with group -1 it gets its null
output, otherwise get_output(math_output[g].u[p]) for that entry (g, p). The
node coupling entry at the sensor's own index plays no part. That is the value
of the formula, and the record at the sensor's output position whenever the
projection completes. -/
theorem voltage_sensor_follows_observed_node {R D : Type} [Zero R] (sym : Bool)
    (math_output : List (MathOutput D sym)) (state : MainModelState R D) (sel : Sel)
    (dest : List (OutputRecord R sym)) (res_it i : Nat)
    (voltage_sensor : GenericVoltageSensor R D) (node_seq : Int) (node_math_id : Idx2D)
    (hc : (citer state.components.voltage_sensor sel)[i]? = some voltage_sensor)
    (he : state.comp_topo.voltage_sensor_node_idx[
      detail.comp_sequence_offset state.components.voltage_sensor sel + i]? = some node_seq)
    (hn : subscript state.comp_coup.node node_seq = .ok node_math_id) :
    (node_math_id.group = -1 →
      voltage_sensor_func sym state math_output voltage_sensor node_seq
        = .ok (voltage_sensor.get_null_output sym) ∧
      Yields (output_result_voltage_sensor sym sel state math_output dest res_it) res_it i
        (voltage_sensor.get_null_output sym)) ∧
    (node_math_id.group ≠ -1 →
      ∀ G u, subscript math_output node_math_id.group = .ok G →
        subscript G.u node_math_id.pos = .ok u →
        voltage_sensor_func sym state math_output voltage_sensor node_seq
          = .ok (voltage_sensor.get_output sym u) ∧
        Yields (output_result_voltage_sensor sym sel state math_output dest res_it) res_it i
          (voltage_sensor.get_output sym u)) := by
  refine ⟨?_, ?_⟩
  · intro hg
    have hf := voltage_sensor_func_null sym state math_output voltage_sensor node_seq
      node_math_id hn hg
    exact ⟨hf, produce_output_yields _ _ dest res_it _ i voltage_sensor node_seq _ hc he hf⟩
  · intro hg G u hG hu
    have hf := voltage_sensor_func_connected sym state math_output voltage_sensor node_seq
      node_math_id G u hn hg hG hu
    exact ⟨hf, produce_output_yields _ _ dest res_it _ i voltage_sensor node_seq _ hc he hf⟩

/-- Witness of C8: sensor 13 of the demo grid, the only instance of the second
voltage-sensor subtype (offset 1), observes node index 2, which is
disconnected, while the node coupling entry at the sensor's own index 0 is
connected; sensor 12 observes node index 1 and reads the voltage 101 of bus 1. -/
theorem voltage_sensor_follows_observed_node_witness :
    (voltage_sensor_func true demo.state demo.math_output (demo.voltage_sensor 13) 2
        = .ok (demo.record 13 false [0]) ∧
      Yields (output_result_voltage_sensor true (.sub 1) demo.state demo.math_output
        [demo.blank] 0) 0 0 (demo.record 13 false [0])) ∧
    (voltage_sensor_func true demo.state demo.math_output (demo.voltage_sensor 12) 1
        = .ok (demo.record 12 true [101]) ∧
      Yields (output_result_voltage_sensor true (.sub 0) demo.state demo.math_output
        [demo.blank] 0) 0 0 (demo.record 12 true [101])) :=
  ⟨(voltage_sensor_follows_observed_node true demo.math_output demo.state (.sub 1)
      [demo.blank] 0 0 (demo.voltage_sensor 13) 2 ⟨-1, -1⟩ rfl rfl rfl).1 rfl,
    (voltage_sensor_follows_observed_node true demo.math_output demo.state (.sub 0)
      [demo.blank] 0 0 (demo.voltage_sensor 12) 1 ⟨0, 1⟩ rfl rfl rfl).2 (by decide)
      demo.group0 (demo.cv 101) rfl rfl⟩

/-- C5: for a power-sensor projection that stays within its containers, the
projection fails with MissingCaseForEnumError if and only if some sensor of
the projected sequence has a terminal type outside the ten recognized ones.
When it fails so, the method text is the category name followed by
" output_result()", the reported value is the terminal type of a sensor of
the sequence, which is unrecognized, and the destination position of that
sensor holds what it held before the call: no record is written for it. The
formula of a sensor with an unrecognized terminal type fails in this way for
every state (every coupling table) and every math output. -/
theorem power_sensor_missing_case_iff_unrecognized {R D : Type} [Zero R] (name : String)
    (sym : Bool) (sel : Sel) (state : MainModelState R D)
    (math_output : List (MathOutput D sym)) (dest : List (OutputRecord R sym)) (res_it : Nat)
    (h_defined : (output_result_power_sensor name sym sel state math_output dest res_it).2
      ≠ .error .out_of_range) :
    ((∃ m t, (output_result_power_sensor name sym sel state math_output dest res_it).2
        = .error (.MissingCaseForEnumError m t)) ↔
      ∃ power_sensor ∈ citer state.components.power_sensor sel,
        power_sensor.get_terminal_type ∉ recognized_terminal_types) ∧
    (∀ m t, (output_result_power_sensor name sym sel state math_output dest res_it).2
        = .error (.MissingCaseForEnumError m t) →
      m = name ++ " output_result()" ∧
      ∃ i power_sensor, (citer state.components.power_sensor sel)[i]? = some power_sensor ∧
        power_sensor.get_terminal_type = t ∧ t ∉ recognized_terminal_types ∧
        (output_result_power_sensor name sym sel state math_output dest res_it).1[res_it + i]?
          = dest[res_it + i]?) ∧
    (∀ (power_sensor : GenericPowerSensor R D) (obj_seq : Int) (state1 : MainModelState R D)
        (math_output1 : List (MathOutput D sym)),
      power_sensor.get_terminal_type ∉ recognized_terminal_types →
      power_sensor_func name sym state1 math_output1 power_sensor obj_seq
        = .error (.MissingCaseForEnumError (name ++ " output_result()")
            power_sensor.get_terminal_type)) := by
  have key : ∀ m t, (output_result_power_sensor name sym sel state math_output dest res_it).2
        = .error (.MissingCaseForEnumError m t) →
      m = name ++ " output_result()" ∧
      ∃ i power_sensor, (citer state.components.power_sensor sel)[i]? = some power_sensor ∧
        power_sensor.get_terminal_type = t ∧ t ∉ recognized_terminal_types ∧
        (output_result_power_sensor name sym sel state math_output dest res_it).1[res_it + i]?
          = dest[res_it + i]? := by
    intro m t h
    obtain ⟨i, c, e, h1, _, h3, h4⟩ := transform_error
      (power_sensor_func name sym state math_output) (citer state.components.power_sensor sel)
      (detail.comp_base_sequence_cbegin_power_sensor state sel) dest res_it
      (output_result_power_sensor name sym sel state math_output dest res_it).1
      (.MissingCaseForEnumError m t) (Prod.ext rfl h) (by simp)
    obtain ⟨g1, g2, g3⟩ := power_sensor_func_missing_case name sym state math_output c e m t h3
    exact ⟨g1, i, c, h1, g2.symm, g3, h4 _ (Nat.le_refl _)⟩
  refine ⟨⟨?_, ?_⟩, key, ?_⟩
  · rintro ⟨m, t, h⟩
    obtain ⟨_, i, c, h1, h2, h3, _⟩ := key m t h
    exact ⟨c, List.getElem?_mem h1, h2 ▸ h3⟩
  · rintro ⟨c, hmem, hc⟩
    obtain ⟨i, hi⟩ := List.mem_iff_getElem?.mp hmem
    cases hrun : (output_result_power_sensor name sym sel state math_output dest res_it).2 with
    | ok r =>
      exfalso
      obtain ⟨e, v, _, hv⟩ := produce_output_ok_func (citer state.components.power_sensor sel)
        (detail.comp_base_sequence_cbegin_power_sensor state sel) dest res_it
        (power_sensor_func name sym state math_output)
        (output_result_power_sensor name sym sel state math_output dest res_it).1 r
        (Prod.ext rfl hrun) i c hi
      rw [power_sensor_func_unrecognized name sym state math_output c e hc] at hv
      simp at hv
    | error err =>
      cases err with
      | out_of_range => exact absurd hrun h_defined
      | MissingCaseForEnumError m t => exact ⟨m, t, rfl⟩
  · intro power_sensor obj_seq state1 math_output1 h
    exact power_sensor_func_unrecognized name sym state1 math_output1 power_sensor obj_seq h

/-- Witness of C5: in the demo state with the unlisted sensor the projection
writes the record of sensor 14, then fails at sensor 19, leaving the buffer
positions 1 and 2 blank. -/
theorem power_sensor_missing_case_iff_unrecognized_witness :
    output_result_power_sensor "generic_power_sensor" true .base demo.state_unlisted
        demo.math_output (List.replicate 3 demo.blank) 0
      = ([demo.record 14 true [10], demo.blank, demo.blank],
          .error (.MissingCaseForEnumError "generic_power_sensor output_result()"
            (.unlisted 42))) ∧
    ((∃ m t, (output_result_power_sensor "generic_power_sensor" true .base demo.state_unlisted
        demo.math_output (List.replicate 3 demo.blank) 0).2
        = .error (.MissingCaseForEnumError m t)) ↔
      ∃ power_sensor ∈ citer demo.state_unlisted.components.power_sensor .base,
        power_sensor.get_terminal_type ∉ recognized_terminal_types) :=
  ⟨rfl,
    (power_sensor_missing_case_iff_unrecognized "generic_power_sensor" true .base
      demo.state_unlisted demo.math_output (List.replicate 3 demo.blank) 0
      (by
        have h : (output_result_power_sensor "generic_power_sensor" true .base
            demo.state_unlisted demo.math_output (List.replicate 3 demo.blank) 0).2
            = .error (.MissingCaseForEnumError "generic_power_sensor output_result()"
              (.unlisted 42)) := rfl
        rw [h]
        simp)).1⟩

/-- C6: when the Source, the GenericLoadGen (all subtypes) and the Shunt
projection each complete, in whatever buffer, and the destination has room,
the Appliance projection completes, returns the destination iterator advanced
by count(Source) + count(GenericLoadGen) + count(Shunt), and its output
sequence is the output sequence of the Source projection, followed by that of
the GenericLoadGen projection, followed by that of the Shunt projection; the
rest of the destination is untouched. The result is the same for any other
state that stores the same sources, load_gens and shunts with the same
coupling tables, so nothing but the stored per-subtype sequences enters it. -/
theorem appliance_concatenates_source_load_gen_shunt {R D : Type} [Zero R] (sym : Bool)
    (math_output : List (MathOutput D sym)) (state : MainModelState R D)
    (dest dest_s dest_l dest_h : List (OutputRecord R sym)) (res_it it_s it_l it_h : Nat)
    (r_s r_l r_h : Nat)
    (h_source : (output_result_source sym state math_output dest_s it_s).2 = .ok r_s)
    (h_load_gen : (output_result_load_gen sym .base state math_output dest_l it_l).2 = .ok r_l)
    (h_shunt : (output_result_shunt sym state math_output dest_h it_h).2 = .ok r_h)
    (h_room : res_it + (state.components.source.length
      + (citer state.components.load_gen .base).length
      + state.components.shunt.length) ≤ dest.length) :
    (output_result_appliance sym state math_output dest res_it).2
      = .ok (res_it + (state.components.source.length
          + (citer state.components.load_gen .base).length
          + state.components.shunt.length)) ∧
    output_sequence (output_result_appliance sym state math_output dest res_it) res_it
        (state.components.source.length + (citer state.components.load_gen .base).length
          + state.components.shunt.length)
      = output_sequence (output_result_source sym state math_output dest_s it_s) it_s
          state.components.source.length
        ++ output_sequence (output_result_load_gen sym .base state math_output dest_l it_l) it_l
          (citer state.components.load_gen .base).length
        ++ output_sequence (output_result_shunt sym state math_output dest_h it_h) it_h
          state.components.shunt.length ∧
    (∀ j, j < res_it ∨ res_it + (state.components.source.length
        + (citer state.components.load_gen .base).length
        + state.components.shunt.length) ≤ j →
      (output_result_appliance sym state math_output dest res_it).1[j]? = dest[j]?) ∧
    (∀ state2 : MainModelState R D,
      state2.components.source = state.components.source →
      state2.components.load_gen = state.components.load_gen →
      state2.components.shunt = state.components.shunt →
      state2.comp_coup.source = state.comp_coup.source →
      state2.comp_coup.load_gen = state.comp_coup.load_gen →
      state2.comp_coup.shunt = state.comp_coup.shunt →
      output_result_appliance sym state2 math_output dest res_it
        = output_result_appliance sym state math_output dest res_it) := by
  obtain ⟨outs_s, p_s, l_s, q_s⟩ := output_sequence_of_ok _ _ dest_s it_s _ r_s h_source
  obtain ⟨outs_l, p_l, l_l, q_l⟩ := output_sequence_of_ok _ _ dest_l it_l _ r_l h_load_gen
  obtain ⟨outs_h, p_h, l_h, q_h⟩ := output_sequence_of_ok _ _ dest_h it_h _ r_h h_shunt
  have e_s : output_result_source sym state math_output dest res_it
      = (written dest res_it outs_s, .ok (res_it + state.components.source.length)) :=
    transform_of_project _ _ _ dest res_it outs_s p_s (by omega)
  have e_l : output_result_load_gen sym .base state math_output (written dest res_it outs_s)
        (res_it + state.components.source.length)
      = (written (written dest res_it outs_s) (res_it + state.components.source.length) outs_l,
          .ok (res_it + state.components.source.length
            + (citer state.components.load_gen .base).length)) :=
    transform_of_project _ _ _ _ _ outs_l p_l (by
      rw [length_written dest res_it outs_s (by omega)]
      omega)
  have e_h : output_result_shunt sym state math_output
        (written (written dest res_it outs_s) (res_it + state.components.source.length) outs_l)
        (res_it + state.components.source.length
          + (citer state.components.load_gen .base).length)
      = (written (written (written dest res_it outs_s)
            (res_it + state.components.source.length) outs_l)
            (res_it + state.components.source.length
              + (citer state.components.load_gen .base).length) outs_h,
          .ok (res_it + state.components.source.length
            + (citer state.components.load_gen .base).length
            + state.components.shunt.length)) :=
    transform_of_project _ _ _ _ _ outs_h p_h (by
      rw [length_written _ _ outs_l (by
        rw [length_written dest res_it outs_s (by omega)]
        omega), length_written dest res_it outs_s (by omega)]
      omega)
  have e_w : written (written (written dest res_it outs_s)
        (res_it + state.components.source.length) outs_l)
        (res_it + state.components.source.length
          + (citer state.components.load_gen .base).length) outs_h
      = written dest res_it (outs_s ++ outs_l ++ outs_h) := by
    rw [← l_s, written_written dest res_it outs_s outs_l (by omega), ← l_l,
      Nat.add_assoc, ← List.length_append,
      written_written dest res_it (outs_s ++ outs_l) outs_h (by
        rw [List.length_append]
        omega)]
  have e_a : output_result_appliance sym state math_output dest res_it
      = (written dest res_it (outs_s ++ outs_l ++ outs_h),
          .ok (res_it + (state.components.source.length
            + (citer state.components.load_gen .base).length
            + state.components.shunt.length))) := by
    unfold output_result_appliance
    rw [e_s]
    dsimp only
    rw [e_l]
    dsimp only
    rw [e_h, e_w]
    simp only [Nat.add_assoc]
  have l_a : (outs_s ++ outs_l ++ outs_h).length
      = state.components.source.length + (citer state.components.load_gen .base).length
        + state.components.shunt.length := by
    simp only [List.length_append, l_s, l_l, l_h]
  refine ⟨by rw [e_a], ?_, ?_, ?_⟩
  · have q_s1 : output_sequence (output_result_source sym state math_output dest_s it_s) it_s
        state.components.source.length = outs_s := q_s
    have q_l1 : output_sequence (output_result_load_gen sym .base state math_output dest_l it_l)
        it_l (citer state.components.load_gen .base).length = outs_l := q_l
    have q_h1 : output_sequence (output_result_shunt sym state math_output dest_h it_h) it_h
        state.components.shunt.length = outs_h := q_h
    rw [q_s1, q_l1, q_h1, e_a]
    unfold output_sequence
    rw [← l_a]
    exact take_drop_written dest res_it _ (by intro _; omega)
  · intro j hj
    rw [e_a]
    exact getElem?_written_out dest res_it _ (by omega) j (by omega)
  · intro state2 h1 h2 h3 h4 h5 h6
    simp only [output_result_appliance, output_result_source, output_result_load_gen,
      output_result_shunt, detail.comp_base_sequence_cbegin_source,
      detail.comp_base_sequence_cbegin_load_gen, detail.comp_base_sequence_cbegin_shunt,
      h1, h2, h3, h4, h5, h6]

/-- Witness of C6: the demo grid has one source, two load_gens, the second one
disconnected, and one shunt; the three projections run each in a buffer of
its own, the Appliance projection in a buffer of four records. -/
theorem appliance_concatenates_source_load_gen_shunt_witness :
    (output_result_appliance true demo.state demo.math_output (List.replicate 4 demo.blank) 0).2
      = .ok (0 + (1 + 2 + 1)) ∧
    output_sequence (output_result_appliance true demo.state demo.math_output
        (List.replicate 4 demo.blank) 0) 0 (1 + 2 + 1)
      = output_sequence (output_result_source true demo.state demo.math_output
          [demo.blank] 0) 0 1
        ++ output_sequence (output_result_load_gen true .base demo.state demo.math_output
          [demo.blank, demo.blank, demo.blank] 1) 1 2
        ++ output_sequence (output_result_shunt true demo.state demo.math_output
          [demo.blank] 0) 0 1 ∧
    output_result_appliance true demo.state demo.math_output (List.replicate 4 demo.blank) 0
      = ([demo.record 8 true [30], demo.record 9 true [50], demo.record 10 false [0],
          demo.record 11 true [40]], .ok 4) :=
  ⟨(appliance_concatenates_source_load_gen_shunt true demo.math_output demo.state
      (List.replicate 4 demo.blank) [demo.blank] [demo.blank, demo.blank, demo.blank]
      [demo.blank] 0 0 1 0 1 3 1 rfl rfl rfl (by decide)).1,
    (appliance_concatenates_source_load_gen_shunt true demo.math_output demo.state
      (List.replicate 4 demo.blank) [demo.blank] [demo.blank, demo.blank, demo.blank]
      [demo.blank] 0 0 1 0 1 3 1 rfl rfl rfl (by decide)).2.1,
    rfl⟩


theorem project_fault_func {R : Type} (cs : List (Fault R)) :
    ∀ (table : List Idx2D) (pos : Nat), pos + cs.length ≤ table.length →
      project fault_func cs ⟨table, pos⟩ = .ok (cs.map Fault.get_output) := by
  induction cs with
  | nil => intro table pos _; simp [project]
  | cons c cs ih =>
    intro table pos h
    have hlt : pos < table.length := by simp at h; omega
    have hrest := ih table (pos + 1) (by simp at h ⊢; omega)
    simp [project, List.getElem?_eq_getElem hlt, fault_func, hrest]

/-- C11: the fault projection does not depend on the math output (nor on its
mode) and not on the content of the fault coupling table. For two states with
the same faults, each with a fault coupling table at least as long as the
fault sequence, and for any two math outputs, both runs complete with the same
result, advance the iterator by the number of faults, and the record at output
position i is fault i's own get_output(), whatever the coupling entry of the
fault is (group -1 included): no null output takes its place. -/
theorem fault_projection_ignores_math_output_and_coupling {R D : Type} (sym1 sym2 : Bool)
    (state1 state2 : MainModelState R D) (math_output1 : List (MathOutput D sym1))
    (math_output2 : List (MathOutput D sym2)) (dest : List (OutputRecord R true))
    (res_it : Nat)
    (h_faults : state2.components.fault = state1.components.fault)
    (h_len1 : state1.components.fault.length ≤ state1.comp_coup.fault.length)
    (h_len2 : state2.components.fault.length ≤ state2.comp_coup.fault.length)
    (h_room : res_it + state1.components.fault.length ≤ dest.length) :
    (output_result_fault sym1 state1 math_output1 dest res_it).2
      = .ok (res_it + state1.components.fault.length) ∧
    output_result_fault sym2 state2 math_output2 dest res_it
      = output_result_fault sym1 state1 math_output1 dest res_it ∧
    (∀ (i : Nat) (fault : Fault R), state1.components.fault[i]? = some fault →
      (output_result_fault sym1 state1 math_output1 dest res_it).1[res_it + i]?
        = some fault.get_output) := by
  have e1 : output_result_fault sym1 state1 math_output1 dest res_it
      = (written dest res_it (state1.components.fault.map Fault.get_output),
          .ok (res_it + state1.components.fault.length)) :=
    transform_of_project _ _ _ dest res_it _
      (project_fault_func state1.components.fault state1.comp_coup.fault 0 (by simpa using h_len1))
      h_room
  have e2 : output_result_fault sym2 state2 math_output2 dest res_it
      = (written dest res_it (state1.components.fault.map Fault.get_output),
          .ok (res_it + state1.components.fault.length)) := by
    unfold output_result_fault detail.produce_output
    rw [h_faults]
    exact transform_of_project fault_func state1.components.fault
      (detail.comp_base_sequence_cbegin_fault state2) dest res_it _
      (project_fault_func state1.components.fault state2.comp_coup.fault 0
        (by rw [← h_faults]; simpa using h_len2)) h_room
  refine ⟨by rw [e1], by rw [e1, e2], ?_⟩
  intro i fault hi
  have hlt : i < state1.components.fault.length := (List.getElem?_eq_some.mp hi).1
  rw [e1]
  rw [getElem?_written_mid dest res_it _ (by omega) i (by simpa using hlt)]
  simp [List.getElem?_map, hi]

/-- Witness of C11: the two demo faults, projected once in symmetric mode with
the demo math output and once in asymmetric mode with an empty math output and
another coupling table. -/
theorem fault_projection_ignores_math_output_and_coupling_witness :
    (output_result_fault true demo.state_fault demo.math_output
        [demo.blank, demo.blank, demo.blank] 1).2 = .ok (1 + 2) ∧
    output_result_fault false demo.state_fault_other ([] : List (MathOutput Int false))
        [demo.blank, demo.blank, demo.blank] 1
      = output_result_fault true demo.state_fault demo.math_output
        [demo.blank, demo.blank, demo.blank] 1 ∧
    output_result_fault true demo.state_fault demo.math_output
        [demo.blank, demo.blank, demo.blank] 1
      = ([demo.blank, demo.record 21 true [], demo.record 22 true []], .ok 3) :=
  ⟨(fault_projection_ignores_math_output_and_coupling true false demo.state_fault
      demo.state_fault_other demo.math_output [] [demo.blank, demo.blank, demo.blank] 1
      rfl (by decide) (by decide) (by decide)).1,
    (fault_projection_ignores_math_output_and_coupling true false demo.state_fault
      demo.state_fault_other demo.math_output [] [demo.blank, demo.blank, demo.blank] 1
      rfl (by decide) (by decide) (by decide)).2.1,
    rfl⟩


theorem sum_length_take_succ {α : Type} (groups : List (List α)) :
    ∀ a : Nat, ((groups.take (a + 1)).map List.length).sum
      = ((groups.take a).map List.length).sum + (groups.getD a []).length := by
  induction groups with
  | nil => intro a; simp
  | cons g gs ih =>
    intro a
    cases a with
    | zero => simp
    | succ a =>
      simp only [List.take_succ_cons, List.map_cons, List.sum_cons, List.getD_cons_succ, ih a]
      omega

theorem sum_length_take_add {α : Type} (groups : List (List α)) (a n : Nat) :
    ((groups.take (a + n)).map List.length).sum
      = ((groups.take a).map List.length).sum
        + (((groups.drop a).take n).map List.length).sum := by
  rw [List.take_add, List.map_append, List.sum_append]

/-- Counterexample to C12 as stated: with one line, two links and one
transformer stored in this order, the offset of the transformers is 3, while
the offset of the lines plus the number of lines is 1. -/
theorem comp_sequence_offset_not_offset_plus_count :
    detail.comp_sequence_offset demo.branch_storage (.sub 2) = 3 ∧
    detail.comp_sequence_offset demo.branch_storage (.sub 0)
      + (citer demo.branch_storage (.sub 0)).length = 1 ∧
    ¬ (detail.comp_sequence_offset demo.branch_storage (.sub 2)
      = detail.comp_sequence_offset demo.branch_storage (.sub 0)
        + (citer demo.branch_storage (.sub 0)).length) := by
  refine ⟨rfl, rfl, ?_⟩
  decide

/-- C12, amended: for a subtype A and the subtype directly after it in
canonical order, the offset of the latter is the offset of A plus the number
of instances of A; for any subtype B after A, the offset of B is the offset of
A plus the number of instances of all subtypes from A up to, not including,
B, hence at least the offset of A plus the number of instances of A. -/
theorem comp_sequence_offset_consistent_with_storage {α : Type} (groups : List (List α))
    (a b : Nat) (h : a < b) :
    detail.comp_sequence_offset groups (.sub (a + 1))
      = detail.comp_sequence_offset groups (.sub a) + (citer groups (.sub a)).length ∧
    detail.comp_sequence_offset groups (.sub b)
      = detail.comp_sequence_offset groups (.sub a)
        + (((groups.drop a).take (b - a)).map List.length).sum ∧
    detail.comp_sequence_offset groups (.sub a) + (citer groups (.sub a)).length
      ≤ detail.comp_sequence_offset groups (.sub b) := by
  have h1 : detail.comp_sequence_offset groups (.sub (a + 1))
      = detail.comp_sequence_offset groups (.sub a) + (citer groups (.sub a)).length :=
    sum_length_take_succ groups a
  have h2 : detail.comp_sequence_offset groups (.sub b)
      = detail.comp_sequence_offset groups (.sub a)
        + (((groups.drop a).take (b - a)).map List.length).sum := by
    have := sum_length_take_add groups a (b - a)
    rw [Nat.add_sub_cancel' (Nat.le_of_lt h)] at this
    exact this
  have h3 : detail.comp_sequence_offset groups (.sub b)
      = detail.comp_sequence_offset groups (.sub (a + 1))
        + (((groups.drop (a + 1)).take (b - (a + 1))).map List.length).sum := by
    have := sum_length_take_add groups (a + 1) (b - (a + 1))
    rw [Nat.add_sub_cancel' h] at this
    exact this
  refine ⟨h1, h2, ?_⟩
  rw [h3, h1]
  exact Nat.le_add_right _ _

/-- Witness of C12, amended: lines and transformers of the demo storage. -/
theorem comp_sequence_offset_consistent_with_storage_witness :
    detail.comp_sequence_offset demo.branch_storage (.sub (0 + 1))
      = detail.comp_sequence_offset demo.branch_storage (.sub 0)
        + (citer demo.branch_storage (.sub 0)).length ∧
    detail.comp_sequence_offset demo.branch_storage (.sub 2)
      = detail.comp_sequence_offset demo.branch_storage (.sub 0)
        + (((demo.branch_storage.drop 0).take (2 - 0)).map List.length).sum ∧
    detail.comp_sequence_offset demo.branch_storage (.sub 0)
        + (citer demo.branch_storage (.sub 0)).length
      ≤ detail.comp_sequence_offset demo.branch_storage (.sub 2) :=
  comp_sequence_offset_consistent_with_storage demo.branch_storage 0 2 (by decide)


theorem produce_output_ok_at {α β γ : Type} (comps : List α) (first2 : Iter β) (dest : List γ)
    (res_it : Nat) (func : α → β → Except Err γ) (dest1 : List γ) (r : Nat)
    (hrun : detail.produce_output comps first2 dest res_it func = (dest1, .ok r))
    (i : Nat) (c : α) (hc : comps[i]? = some c) :
    ∃ e v, first2.base[first2.pos + i]? = some e ∧ func c e = .ok v ∧
      dest1[res_it + i]? = some v := by
  obtain ⟨e, v, he, hv⟩ := produce_output_ok_func comps first2 dest res_it func dest1 r hrun i c hc
  exact ⟨e, v, he, hv, produce_output_yields comps first2 dest res_it func i c e v hc he hv
    dest1 r hrun⟩

/-- C13: the slice of a projection starts, in the table of its category, at
position 0 for Node, Source, Shunt and Fault (the node, source, shunt and fault
coupling table) and at the offset of the subtype for the others: offset(Branch,
S) in the branch table, offset(Branch3, S) in the three-winding table,
offset(GenericLoadGen, S) in the load_gen table, offset(GenericVoltageSensor,
S) in voltage_sensor_node_idx and offset(GenericPowerSensor, S) in
power_sensor_object_idx. In a projection that completes, the record at output
position i is the formula applied to the i-th component of the projected
sequence and to the entry at that start plus i. -/
theorem coupling_slice_starts_at_category_offset {R D : Type} [Zero R] (name : String)
    (sym : Bool) (state : MainModelState R D) (math_output : List (MathOutput D sym))
    (dest : List (OutputRecord R sym)) (res_it : Nat) :
    ((detail.comp_base_sequence_cbegin_node state
        = ⟨state.comp_coup.node, 0⟩) ∧
      ∀ (dest1 : List (OutputRecord R sym)) (r i : Nat) (c : Node R D),
        output_result_node sym state math_output dest res_it
          = (dest1, .ok r) →
        (state.components.node)[i]? = some c →
        ∃ e v, state.comp_coup.node[i]? = some e ∧
          node_func sym math_output c e = .ok v ∧ dest1[res_it + i]? = some v) ∧
    ((∀ sel : Sel, detail.comp_base_sequence_cbegin_branch state sel
        = ⟨state.comp_coup.branch,
        detail.comp_sequence_offset state.components.branch sel⟩) ∧
      ∀ (sel : Sel) (dest1 : List (OutputRecord R sym)) (r i : Nat) (c : Branch R D),
        output_result_branch sym sel state math_output dest res_it
          = (dest1, .ok r) →
        (citer state.components.branch sel)[i]? = some c →
        ∃ e v, state.comp_coup.branch[
          detail.comp_sequence_offset state.components.branch sel + i]? = some e ∧
          branch_func sym math_output c e = .ok v ∧ dest1[res_it + i]? = some v) ∧
    ((∀ sel : Sel, detail.comp_base_sequence_cbegin_branch3 state sel
        = ⟨state.comp_coup.branch3,
        detail.comp_sequence_offset state.components.branch3 sel⟩) ∧
      ∀ (sel : Sel) (dest1 : List (OutputRecord R sym)) (r i : Nat) (c : Branch3 R D),
        output_result_branch3 sym sel state math_output dest res_it
          = (dest1, .ok r) →
        (citer state.components.branch3 sel)[i]? = some c →
        ∃ e v, state.comp_coup.branch3[
          detail.comp_sequence_offset state.components.branch3 sel + i]? = some e ∧
          branch3_func sym math_output c e = .ok v ∧ dest1[res_it + i]? = some v) ∧
    ((detail.comp_base_sequence_cbegin_source state
        = ⟨state.comp_coup.source, 0⟩) ∧
      ∀ (dest1 : List (OutputRecord R sym)) (r i : Nat) (c : Source R D),
        output_result_source sym state math_output dest res_it
          = (dest1, .ok r) →
        (state.components.source)[i]? = some c →
        ∃ e v, state.comp_coup.source[i]? = some e ∧
          source_func sym math_output c e = .ok v ∧ dest1[res_it + i]? = some v) ∧
    ((∀ sel : Sel, detail.comp_base_sequence_cbegin_load_gen state sel
        = ⟨state.comp_coup.load_gen,
        detail.comp_sequence_offset state.components.load_gen sel⟩) ∧
      ∀ (sel : Sel) (dest1 : List (OutputRecord R sym)) (r i : Nat) (c : GenericLoadGen R D),
        output_result_load_gen sym sel state math_output dest res_it
          = (dest1, .ok r) →
        (citer state.components.load_gen sel)[i]? = some c →
        ∃ e v, state.comp_coup.load_gen[
          detail.comp_sequence_offset state.components.load_gen sel + i]? = some e ∧
          load_gen_func sym math_output c e = .ok v ∧ dest1[res_it + i]? = some v) ∧
    ((detail.comp_base_sequence_cbegin_shunt state
        = ⟨state.comp_coup.shunt, 0⟩) ∧
      ∀ (dest1 : List (OutputRecord R sym)) (r i : Nat) (c : Shunt R D),
        output_result_shunt sym state math_output dest res_it
          = (dest1, .ok r) →
        (state.components.shunt)[i]? = some c →
        ∃ e v, state.comp_coup.shunt[i]? = some e ∧
          shunt_func sym math_output c e = .ok v ∧ dest1[res_it + i]? = some v) ∧
    ((∀ sel : Sel, detail.comp_base_sequence_cbegin_voltage_sensor state sel
        = ⟨state.comp_topo.voltage_sensor_node_idx,
        detail.comp_sequence_offset state.components.voltage_sensor sel⟩) ∧
      ∀ (sel : Sel) (dest1 : List (OutputRecord R sym)) (r i : Nat) (c : GenericVoltageSensor R D),
        output_result_voltage_sensor sym sel state math_output dest res_it
          = (dest1, .ok r) →
        (citer state.components.voltage_sensor sel)[i]? = some c →
        ∃ e v, state.comp_topo.voltage_sensor_node_idx[
          detail.comp_sequence_offset state.components.voltage_sensor sel + i]? = some e ∧
          voltage_sensor_func sym state math_output c e = .ok v ∧ dest1[res_it + i]? = some v) ∧
    ((∀ sel : Sel, detail.comp_base_sequence_cbegin_power_sensor state sel
        = ⟨state.comp_topo.power_sensor_object_idx,
        detail.comp_sequence_offset state.components.power_sensor sel⟩) ∧
      ∀ (sel : Sel) (dest1 : List (OutputRecord R sym)) (r i : Nat) (c : GenericPowerSensor R D),
        output_result_power_sensor name sym sel state math_output dest res_it
          = (dest1, .ok r) →
        (citer state.components.power_sensor sel)[i]? = some c →
        ∃ e v, state.comp_topo.power_sensor_object_idx[
          detail.comp_sequence_offset state.components.power_sensor sel + i]? = some e ∧
          power_sensor_func name sym state math_output c e = .ok v ∧ dest1[res_it + i]? = some v) ∧
    ((detail.comp_base_sequence_cbegin_fault state = ⟨state.comp_coup.fault, 0⟩) ∧
      ∀ (destf destf1 : List (OutputRecord R true)) (r i : Nat) (c : Fault R),
        output_result_fault sym state math_output destf res_it = (destf1, .ok r) →
        state.components.fault[i]? = some c →
        ∃ e v, state.comp_coup.fault[i]? = some e ∧
          fault_func c e = .ok v ∧ destf1[res_it + i]? = some v) := by
  refine ⟨?_, ?_, ?_, ?_, ?_, ?_, ?_, ?_, ?_⟩
  · refine ⟨rfl, ?_⟩
    intro dest1 r i c hrun hc
    have h := produce_output_ok_at _ (detail.comp_base_sequence_cbegin_node state) dest res_it _ dest1 r
      hrun i c hc
    simpa [detail.comp_base_sequence_cbegin_node] using h
  · refine ⟨fun _ => rfl, ?_⟩
    intro sel dest1 r i c hrun hc
    exact produce_output_ok_at _ (detail.comp_base_sequence_cbegin_branch state sel) dest res_it _ dest1 r
      hrun i c hc
  · refine ⟨fun _ => rfl, ?_⟩
    intro sel dest1 r i c hrun hc
    exact produce_output_ok_at _ (detail.comp_base_sequence_cbegin_branch3 state sel) dest res_it _ dest1 r
      hrun i c hc
  · refine ⟨rfl, ?_⟩
    intro dest1 r i c hrun hc
    have h := produce_output_ok_at _ (detail.comp_base_sequence_cbegin_source state) dest res_it _ dest1 r
      hrun i c hc
    simpa [detail.comp_base_sequence_cbegin_source] using h
  · refine ⟨fun _ => rfl, ?_⟩
    intro sel dest1 r i c hrun hc
    exact produce_output_ok_at _ (detail.comp_base_sequence_cbegin_load_gen state sel) dest res_it _ dest1 r
      hrun i c hc
  · refine ⟨rfl, ?_⟩
    intro dest1 r i c hrun hc
    have h := produce_output_ok_at _ (detail.comp_base_sequence_cbegin_shunt state) dest res_it _ dest1 r
      hrun i c hc
    simpa [detail.comp_base_sequence_cbegin_shunt] using h
  · refine ⟨fun _ => rfl, ?_⟩
    intro sel dest1 r i c hrun hc
    exact produce_output_ok_at _ (detail.comp_base_sequence_cbegin_voltage_sensor state sel) dest res_it _ dest1 r
      hrun i c hc
  · refine ⟨fun _ => rfl, ?_⟩
    intro sel dest1 r i c hrun hc
    exact produce_output_ok_at _ (detail.comp_base_sequence_cbegin_power_sensor state sel) dest res_it _ dest1 r
      hrun i c hc
  · refine ⟨rfl, ?_⟩
    intro destf destf1 r i c hrun hc
    have h := produce_output_ok_at _ (detail.comp_base_sequence_cbegin_fault state) destf res_it _
      destf1 r hrun i c hc
    simpa [detail.comp_base_sequence_cbegin_fault] using h

/-- Witness of C13: the projection of the second branch subtype of the demo
grid, the two links, whose offset is 1: link 6, at position 1, is paired with
branch coupling entry 1 + 1, the disconnected one, and not with entry 1. -/
theorem coupling_slice_starts_at_category_offset_witness :
    detail.comp_sequence_offset demo.state.components.branch (.sub 1) = 1 ∧
    ∃ e v, demo.state.comp_coup.branch[
        detail.comp_sequence_offset demo.state.components.branch (.sub 1) + 1]? = some e ∧
      branch_func true demo.math_output (demo.branch 6) e = .ok v ∧
      [demo.record 5 true [11, -11], demo.record 6 false [0, 0]][0 + 1]? = some v :=
  ⟨rfl, (coupling_slice_starts_at_category_offset "generic_power_sensor" true demo.state
    demo.math_output [demo.blank, demo.blank] 0).2.1.2 (.sub 1)
    [demo.record 5 true [11, -11], demo.record 6 false [0, 0]] 2 1 (demo.branch 6) rfl rfl⟩


/-- C14: for every link input and every pair of rated voltages, the
construction of a link fails with InvalidBranch exactly when from_node equals
to_node; with different nodes it yields the link. -/
theorem link_construction_rejects_same_node {V : Type} (link_input : LinkInput)
    (u1_rated u2_rated : V) :
    (Link.construct link_input u1_rated u2_rated = .error .InvalidBranch
      ↔ link_input.from_node = link_input.to_node) ∧
    (link_input.from_node ≠ link_input.to_node →
      Link.construct link_input u1_rated u2_rated = .ok ⟨link_input, u1_rated, u2_rated⟩) := by
  unfold Link.construct
  by_cases h : link_input.from_node = link_input.to_node
  · simp [h]
  · simp [h]

/-- Witness of C14: the two constructions of `test_link.cpp`, with rated
voltages 10 kV and 50 kV. -/
theorem link_construction_rejects_same_node_witness :
    Link.construct demo.link_input_same_node (10000 : Int) 50000 = .error .InvalidBranch ∧
    Link.construct demo.link_input (10000 : Int) 50000
      = .ok ⟨demo.link_input, 10000, 50000⟩ :=
  ⟨(link_construction_rejects_same_node demo.link_input_same_node (10000 : Int) 50000).1.mpr rfl,
    (link_construction_rejects_same_node demo.link_input (10000 : Int) 50000).2 (by decide)⟩

/-! ## Lemmas on totality -/

theorem subscript_of_lt {α : Type} (xs : List α) (i : Int) (h0 : 0 ≤ i)
    (h1 : i.toNat < xs.length) : ∃ x, subscript xs i = .ok x ∧ x ∈ xs := by
  refine ⟨xs[i.toNat], ?_, List.getElem_mem _⟩
  simp [subscript, h0, List.getElem?_eq_getElem h1]

theorem subscript_of_in_range {α : Type} (xs : List α) (i : Int) (h : in_range xs i = true) :
    ∃ x, subscript xs i = .ok x ∧ x ∈ xs := by
  simp only [in_range, Bool.and_eq_true, decide_eq_true_eq] at h
  exact subscript_of_lt xs i h.1 h.2

theorem entry_within_elim {D : Type} {sym : Bool} (math_output : List (MathOutput D sym))
    (size : MathOutput D sym → Nat) (group pos : Int)
    (h : entry_within math_output size group pos = true) (hg : group ≠ -1) :
    ∃ G, subscript math_output group = .ok G ∧ 0 ≤ pos ∧ pos.toNat < size G := by
  unfold entry_within at h
  simp only [Bool.or_eq_true, beq_iff_eq, hg, false_or] at h
  split at h
  · rename_i G hG
    simp only [Bool.and_eq_true, decide_eq_true_eq] at h
    exact ⟨G, hG, h.1, h.2⟩
  · simp at h

theorem node_func_total {R D : Type} [Zero R] (sym : Bool)
    (math_output : List (MathOutput D sym)) (node : Node R D) (e : Idx2D)
    (h1 : entry_within math_output (fun G => G.u.length) e.group e.pos = true)
    (h2 : entry_within math_output (fun G => G.bus_injection.length) e.group e.pos = true) :
    ∃ v, node_func sym math_output node e = .ok v := by
  by_cases hg : e.group = -1
  · exact ⟨_, node_func_null sym math_output node e hg⟩
  · obtain ⟨G, hG, a0, a1⟩ := entry_within_elim _ _ _ _ h1 hg
    obtain ⟨G2, hG2, b0, b1⟩ := entry_within_elim _ _ _ _ h2 hg
    rw [hG] at hG2
    simp only [Except.ok.injEq] at hG2
    subst hG2
    obtain ⟨u, hu, _⟩ := subscript_of_lt G.u e.pos a0 a1
    obtain ⟨s, hs, _⟩ := subscript_of_lt G.bus_injection e.pos b0 b1
    exact ⟨_, node_func_connected sym math_output node e.group e.pos G u s hg hG hu hs⟩

theorem branch_func_total {R D : Type} [Zero R] (sym : Bool)
    (math_output : List (MathOutput D sym)) (branch : Branch R D) (e : Idx2D)
    (h1 : entry_within math_output (fun G => G.branch.length) e.group e.pos = true) :
    ∃ v, branch_func sym math_output branch e = .ok v := by
  by_cases hg : e.group = -1
  · exact ⟨_, branch_func_null sym math_output branch e hg⟩
  · obtain ⟨G, hG, a0, a1⟩ := entry_within_elim _ _ _ _ h1 hg
    obtain ⟨b, hb, _⟩ := subscript_of_lt G.branch e.pos a0 a1
    exact ⟨_, branch_func_connected sym math_output branch e.group e.pos G b hg hG hb⟩

theorem branch3_func_total {R D : Type} [Zero R] (sym : Bool)
    (math_output : List (MathOutput D sym)) (branch3 : Branch3 R D) (e : Idx2DBranch3)
    (h0 : entry_within math_output (fun G => G.branch.length) e.group (e.pos 0) = true)
    (h1 : entry_within math_output (fun G => G.branch.length) e.group (e.pos 1) = true)
    (h2 : entry_within math_output (fun G => G.branch.length) e.group (e.pos 2) = true) :
    ∃ v, branch3_func sym math_output branch3 e = .ok v := by
  by_cases hg : e.group = -1
  · exact ⟨_, branch3_func_null sym math_output branch3 e hg⟩
  · obtain ⟨G, hG, a0, a1⟩ := entry_within_elim _ _ _ _ h0 hg
    obtain ⟨G1, hG1, b0, b1⟩ := entry_within_elim _ _ _ _ h1 hg
    obtain ⟨G2, hG2, c0, c1⟩ := entry_within_elim _ _ _ _ h2 hg
    rw [hG] at hG1 hG2
    simp only [Except.ok.injEq] at hG1 hG2
    subst hG1
    subst hG2
    obtain ⟨x0, hx0, _⟩ := subscript_of_lt G.branch (e.pos 0) a0 a1
    obtain ⟨x1, hx1, _⟩ := subscript_of_lt G.branch (e.pos 1) b0 b1
    obtain ⟨x2, hx2, _⟩ := subscript_of_lt G.branch (e.pos 2) c0 c1
    exact ⟨_, branch3_func_connected sym math_output branch3 e G x0 x1 x2 hg hG hx0 hx1 hx2⟩

theorem source_func_total {R D : Type} [Zero R] (sym : Bool)
    (math_output : List (MathOutput D sym)) (source : Source R D) (e : Idx2D)
    (h1 : entry_within math_output (fun G => G.source.length) e.group e.pos = true) :
    ∃ v, source_func sym math_output source e = .ok v := by
  by_cases hg : e.group = -1
  · exact ⟨_, source_func_null sym math_output source e hg⟩
  · obtain ⟨G, hG, a0, a1⟩ := entry_within_elim _ _ _ _ h1 hg
    obtain ⟨a, ha, _⟩ := subscript_of_lt G.source e.pos a0 a1
    exact ⟨_, source_func_connected sym math_output source e.group e.pos G a hg hG ha⟩

theorem load_gen_func_total {R D : Type} [Zero R] (sym : Bool)
    (math_output : List (MathOutput D sym)) (load_gen : GenericLoadGen R D) (e : Idx2D)
    (h1 : entry_within math_output (fun G => G.load_gen.length) e.group e.pos = true) :
    ∃ v, load_gen_func sym math_output load_gen e = .ok v := by
  by_cases hg : e.group = -1
  · exact ⟨_, load_gen_func_null sym math_output load_gen e hg⟩
  · obtain ⟨G, hG, a0, a1⟩ := entry_within_elim _ _ _ _ h1 hg
    obtain ⟨a, ha, _⟩ := subscript_of_lt G.load_gen e.pos a0 a1
    exact ⟨_, load_gen_func_connected sym math_output load_gen e.group e.pos G a hg hG ha⟩

theorem shunt_func_total {R D : Type} [Zero R] (sym : Bool)
    (math_output : List (MathOutput D sym)) (shunt : Shunt R D) (e : Idx2D)
    (h1 : entry_within math_output (fun G => G.shunt.length) e.group e.pos = true) :
    ∃ v, shunt_func sym math_output shunt e = .ok v := by
  by_cases hg : e.group = -1
  · exact ⟨_, shunt_func_null sym math_output shunt e hg⟩
  · obtain ⟨G, hG, a0, a1⟩ := entry_within_elim _ _ _ _ h1 hg
    obtain ⟨a, ha, _⟩ := subscript_of_lt G.shunt e.pos a0 a1
    exact ⟨_, shunt_func_connected sym math_output shunt e.group e.pos G a hg hG ha⟩

theorem coupling_within_elim {R D : Type} {sym : Bool} (state : MainModelState R D)
    (math_output : List (MathOutput D sym)) (h : coupling_within state math_output = true) :
    (∀ e ∈ state.comp_coup.node,
      entry_within math_output (fun G => G.u.length) e.group e.pos = true ∧
      entry_within math_output (fun G => G.bus_injection.length) e.group e.pos = true) ∧
    (∀ e ∈ state.comp_coup.branch,
      entry_within math_output (fun G => G.branch.length) e.group e.pos = true) ∧
    (∀ e ∈ state.comp_coup.branch3,
      entry_within math_output (fun G => G.branch.length) e.group (e.pos 0) = true ∧
      entry_within math_output (fun G => G.branch.length) e.group (e.pos 1) = true ∧
      entry_within math_output (fun G => G.branch.length) e.group (e.pos 2) = true) ∧
    (∀ e ∈ state.comp_coup.source,
      entry_within math_output (fun G => G.source.length) e.group e.pos = true) ∧
    (∀ e ∈ state.comp_coup.load_gen,
      entry_within math_output (fun G => G.load_gen.length) e.group e.pos = true) ∧
    (∀ e ∈ state.comp_coup.shunt,
      entry_within math_output (fun G => G.shunt.length) e.group e.pos = true) := by
  simp only [coupling_within, Bool.and_eq_true, List.all_eq_true] at h
  obtain ⟨⟨⟨⟨⟨h1, h2⟩, h3⟩, h4⟩, h5⟩, h6⟩ := h
  refine ⟨h1, h2, ?_, h4, h5, h6⟩
  intro e he
  have := h3 e he
  exact ⟨this.1.1, this.1.2, this.2⟩

theorem voltage_sensor_func_total {R D : Type} [Zero R] (sym : Bool)
    (state : MainModelState R D) (math_output : List (MathOutput D sym))
    (h : coupling_within state math_output = true)
    (voltage_sensor : GenericVoltageSensor R D) (node_seq : Int)
    (hn : in_range state.comp_coup.node node_seq = true) :
    ∃ v, voltage_sensor_func sym state math_output voltage_sensor node_seq = .ok v := by
  obtain ⟨e, he, hmem⟩ := subscript_of_in_range _ _ hn
  have h1 := ((coupling_within_elim state math_output h).1 e hmem).1
  by_cases hg : e.group = -1
  · exact ⟨_, voltage_sensor_func_null sym state math_output voltage_sensor node_seq e he hg⟩
  · obtain ⟨G, hG, a0, a1⟩ := entry_within_elim _ _ _ _ h1 hg
    obtain ⟨u, hu, _⟩ := subscript_of_lt G.u e.pos a0 a1
    exact ⟨_, voltage_sensor_func_connected sym state math_output voltage_sensor node_seq e G u
      he hg hG hu⟩

theorem power_sensor_select_total {R D : Type} (name : String) (sym : Bool)
    (math_output : List (MathOutput D sym)) (power_sensor : GenericPowerSensor R D)
    (t : MeasuredTerminalType) (g p : Int) (hg : g ≠ -1)
    (hb : t = .branch_from ∨ t = .branch_to ∨ t = .branch3_1 ∨ t = .branch3_2 ∨ t = .branch3_3 →
      entry_within math_output (fun G => G.branch.length) g p = true)
    (hs : t = .source → entry_within math_output (fun G => G.source.length) g p = true)
    (hh : t = .shunt → entry_within math_output (fun G => G.shunt.length) g p = true)
    (hl : t = .load ∨ t = .generator →
      entry_within math_output (fun G => G.load_gen.length) g p = true)
    (hn : t = .node → entry_within math_output (fun G => G.bus_injection.length) g p = true)
    (ht : t ∈ recognized_terminal_types) :
    ∃ v, power_sensor_select name sym math_output power_sensor t ⟨g, p⟩ = .ok v := by
  cases t <;> simp [recognized_terminal_types] at ht
  case branch_from =>
    obtain ⟨G, hG, a0, a1⟩ := entry_within_elim _ _ _ _ (hb (by simp)) hg
    obtain ⟨b, hb1, _⟩ := subscript_of_lt G.branch p a0 a1
    exact ⟨power_sensor.get_output sym b.s_f, by simp [power_sensor_select, hG, hb1, bind, Except.bind]⟩
  case branch_to =>
    obtain ⟨G, hG, a0, a1⟩ := entry_within_elim _ _ _ _ (hb (by simp)) hg
    obtain ⟨b, hb1, _⟩ := subscript_of_lt G.branch p a0 a1
    exact ⟨power_sensor.get_output sym b.s_t, by simp [power_sensor_select, hG, hb1, bind, Except.bind]⟩
  case branch3_1 =>
    obtain ⟨G, hG, a0, a1⟩ := entry_within_elim _ _ _ _ (hb (by simp)) hg
    obtain ⟨b, hb1, _⟩ := subscript_of_lt G.branch p a0 a1
    exact ⟨power_sensor.get_output sym b.s_f, by simp [power_sensor_select, hG, hb1, bind, Except.bind]⟩
  case branch3_2 =>
    obtain ⟨G, hG, a0, a1⟩ := entry_within_elim _ _ _ _ (hb (by simp)) hg
    obtain ⟨b, hb1, _⟩ := subscript_of_lt G.branch p a0 a1
    exact ⟨power_sensor.get_output sym b.s_f, by simp [power_sensor_select, hG, hb1, bind, Except.bind]⟩
  case branch3_3 =>
    obtain ⟨G, hG, a0, a1⟩ := entry_within_elim _ _ _ _ (hb (by simp)) hg
    obtain ⟨b, hb1, _⟩ := subscript_of_lt G.branch p a0 a1
    exact ⟨power_sensor.get_output sym b.s_f, by simp [power_sensor_select, hG, hb1, bind, Except.bind]⟩
  case source =>
    obtain ⟨G, hG, a0, a1⟩ := entry_within_elim _ _ _ _ (hs rfl) hg
    obtain ⟨a, ha, _⟩ := subscript_of_lt G.source p a0 a1
    exact ⟨power_sensor.get_output sym a.s, by simp [power_sensor_select, hG, ha, bind, Except.bind]⟩
  case shunt =>
    obtain ⟨G, hG, a0, a1⟩ := entry_within_elim _ _ _ _ (hh rfl) hg
    obtain ⟨a, ha, _⟩ := subscript_of_lt G.shunt p a0 a1
    exact ⟨power_sensor.get_output sym a.s, by simp [power_sensor_select, hG, ha, bind, Except.bind]⟩
  case load =>
    obtain ⟨G, hG, a0, a1⟩ := entry_within_elim _ _ _ _ (hl (by simp)) hg
    obtain ⟨a, ha, _⟩ := subscript_of_lt G.load_gen p a0 a1
    exact ⟨power_sensor.get_output sym a.s, by simp [power_sensor_select, hG, ha, bind, Except.bind]⟩
  case generator =>
    obtain ⟨G, hG, a0, a1⟩ := entry_within_elim _ _ _ _ (hl (by simp)) hg
    obtain ⟨a, ha, _⟩ := subscript_of_lt G.load_gen p a0 a1
    exact ⟨power_sensor.get_output sym a.s, by simp [power_sensor_select, hG, ha, bind, Except.bind]⟩
  case node =>
    obtain ⟨G, hG, a0, a1⟩ := entry_within_elim _ _ _ _ (hn rfl) hg
    obtain ⟨s, hs1, _⟩ := subscript_of_lt G.bus_injection p a0 a1
    exact ⟨power_sensor.get_output sym s, by simp [power_sensor_select, hG, hs1, bind, Except.bind]⟩

theorem power_sensor_func_total {R D : Type} [Zero R] (name : String) (sym : Bool)
    (state : MainModelState R D) (math_output : List (MathOutput D sym))
    (h : coupling_within state math_output = true)
    (power_sensor : GenericPowerSensor R D) (obj_seq : Int)
    (ht : power_sensor.get_terminal_type ∈ recognized_terminal_types)
    (hi : object_index_within state power_sensor.get_terminal_type obj_seq = true) :
    ∃ v, power_sensor_func name sym state math_output power_sensor obj_seq = .ok v := by
  obtain ⟨w_node, w_branch, w_branch3, w_source, w_load_gen, w_shunt⟩ :=
    coupling_within_elim state math_output h
  -- the coupling entry of the measured object and what is known of it
  have key : ∃ g p, power_sensor_obj_math_id name state power_sensor.get_terminal_type obj_seq
        = .ok ⟨g, p⟩ ∧
      (power_sensor.get_terminal_type = .branch_from ∨
          power_sensor.get_terminal_type = .branch_to ∨
          power_sensor.get_terminal_type = .branch3_1 ∨
          power_sensor.get_terminal_type = .branch3_2 ∨
          power_sensor.get_terminal_type = .branch3_3 →
        entry_within math_output (fun G => G.branch.length) g p = true) ∧
      (power_sensor.get_terminal_type = .source →
        entry_within math_output (fun G => G.source.length) g p = true) ∧
      (power_sensor.get_terminal_type = .shunt →
        entry_within math_output (fun G => G.shunt.length) g p = true) ∧
      (power_sensor.get_terminal_type = .load ∨ power_sensor.get_terminal_type = .generator →
        entry_within math_output (fun G => G.load_gen.length) g p = true) ∧
      (power_sensor.get_terminal_type = .node →
        entry_within math_output (fun G => G.bus_injection.length) g p = true) := by
    cases htt : power_sensor.get_terminal_type <;>
      simp only [htt, recognized_terminal_types, object_index_within] at ht hi
    case branch_from =>
      obtain ⟨e, he, hm⟩ := subscript_of_in_range _ _ hi
      exact ⟨e.group, e.pos, by simp [power_sensor_obj_math_id, he],
        by simp [w_branch e hm], by simp, by simp, by simp, by simp⟩
    case branch_to =>
      obtain ⟨e, he, hm⟩ := subscript_of_in_range _ _ hi
      exact ⟨e.group, e.pos, by simp [power_sensor_obj_math_id, he],
        by simp [w_branch e hm], by simp, by simp, by simp, by simp⟩
    case source =>
      obtain ⟨e, he, hm⟩ := subscript_of_in_range _ _ hi
      exact ⟨e.group, e.pos, by simp [power_sensor_obj_math_id, he],
        by simp, by simp [w_source e hm], by simp, by simp, by simp⟩
    case shunt =>
      obtain ⟨e, he, hm⟩ := subscript_of_in_range _ _ hi
      exact ⟨e.group, e.pos, by simp [power_sensor_obj_math_id, he],
        by simp, by simp, by simp [w_shunt e hm], by simp, by simp⟩
    case load =>
      obtain ⟨e, he, hm⟩ := subscript_of_in_range _ _ hi
      exact ⟨e.group, e.pos, by simp [power_sensor_obj_math_id, he],
        by simp, by simp, by simp, by simp [w_load_gen e hm], by simp⟩
    case generator =>
      obtain ⟨e, he, hm⟩ := subscript_of_in_range _ _ hi
      exact ⟨e.group, e.pos, by simp [power_sensor_obj_math_id, he],
        by simp, by simp, by simp, by simp [w_load_gen e hm], by simp⟩
    case branch3_1 =>
      obtain ⟨e, he, hm⟩ := subscript_of_in_range _ _ hi
      exact ⟨e.group, e.pos 0, by simp [power_sensor_obj_math_id, he, bind, Except.bind],
        by simp [(w_branch3 e hm).1], by simp, by simp, by simp, by simp⟩
    case branch3_2 =>
      obtain ⟨e, he, hm⟩ := subscript_of_in_range _ _ hi
      exact ⟨e.group, e.pos 1, by simp [power_sensor_obj_math_id, he, bind, Except.bind],
        by simp [(w_branch3 e hm).2.1], by simp, by simp, by simp, by simp⟩
    case branch3_3 =>
      obtain ⟨e, he, hm⟩ := subscript_of_in_range _ _ hi
      exact ⟨e.group, e.pos 2, by simp [power_sensor_obj_math_id, he, bind, Except.bind],
        by simp [(w_branch3 e hm).2.2], by simp, by simp, by simp, by simp⟩
    case node =>
      obtain ⟨e, he, hm⟩ := subscript_of_in_range _ _ hi
      exact ⟨e.group, e.pos, by simp [power_sensor_obj_math_id, he],
        by simp, by simp, by simp, by simp, by simp [(w_node e hm).2]⟩
    case unlisted raw => simp at ht
  obtain ⟨g, p, hid, kb, ks, kh, kl, kn⟩ := key
  by_cases hg : g = -1
  · exact ⟨_, power_sensor_func_null name sym state math_output power_sensor obj_seq ⟨g, p⟩
      hid hg⟩
  · rw [power_sensor_func_connected name sym state math_output power_sensor obj_seq ⟨g, p⟩
      hid hg]
    exact power_sensor_select_total name sym math_output power_sensor _ g p hg kb ks kh kl kn ht

theorem project_total {α β γ : Type} (op : α → β → Except Err γ) (cs : List α) :
    ∀ (first2 : Iter β),
      (∀ (i : Nat) (c : α), cs[i]? = some c →
        ∃ e v, first2.base[first2.pos + i]? = some e ∧ op c e = .ok v) →
      ∃ outs, project op cs first2 = .ok outs := by
  induction cs with
  | nil => intro first2 _; exact ⟨[], by simp [project]⟩
  | cons c0 cs ih =>
    intro first2 h
    obtain ⟨e, v, he, hv⟩ := h 0 c0 (by simp)
    obtain ⟨outs, houts⟩ := ih ⟨first2.base, first2.pos + 1⟩ (by
      intro i c hc
      obtain ⟨e1, v1, h1, h2⟩ := h (i + 1) c (by simpa using hc)
      exact ⟨e1, v1, by simpa [Nat.add_assoc, Nat.add_comm 1] using h1, h2⟩)
    simp only [Nat.add_zero] at he
    exact ⟨v :: outs, by simp [project, he, hv, houts]⟩

theorem produce_output_completes {α β γ : Type} (comps : List α) (first2 : Iter β)
    (dest : List γ) (res_it : Nat) (func : α → β → Except Err γ)
    (h : ∀ (i : Nat) (c : α), comps[i]? = some c →
      ∃ e v, first2.base[first2.pos + i]? = some e ∧ func c e = .ok v)
    (h_room : res_it + comps.length ≤ dest.length) :
    Completes (detail.produce_output comps first2 dest res_it func) dest res_it comps.length := by
  obtain ⟨outs, houts⟩ := project_total func comps first2 h
  exact ⟨outs, project_length func comps first2 outs houts,
    transform_of_project func comps first2 dest res_it outs houts h_room⟩

theorem slice_entry {β : Type} (table : List β) (off n i : Nat) (h : off + n ≤ table.length)
    (hi : i < n) : ∃ e, table[off + i]? = some e ∧ e ∈ table := by
  have hlt : off + i < table.length := by omega
  exact ⟨table[off + i], List.getElem?_eq_getElem hlt, List.getElem_mem _⟩

theorem produce_output_completes_of_slice {α β γ : Type} (comps : List α) (first2 : Iter β)
    (dest : List γ) (res_it : Nat) (func : α → β → Except Err γ)
    (h_slice : first2.pos + comps.length ≤ first2.base.length)
    (h_func : ∀ (c : α) (e : β), e ∈ first2.base → ∃ v, func c e = .ok v)
    (h_room : res_it + comps.length ≤ dest.length) :
    Completes (detail.produce_output comps first2 dest res_it func) dest res_it comps.length := by
  apply produce_output_completes comps first2 dest res_it func _ h_room
  intro i c hc
  have hi : i < comps.length := (List.getElem?_eq_some.mp hc).1
  obtain ⟨e, he, hm⟩ := slice_entry first2.base first2.pos comps.length i h_slice hi
  obtain ⟨v, hv⟩ := h_func c e hm
  exact ⟨e, v, he, hv⟩

theorem output_result_appliance_completes {R D : Type} [Zero R] (sym : Bool)
    (math_output : List (MathOutput D sym)) (state : MainModelState R D)
    (dest : List (OutputRecord R sym)) (res_it : Nat)
    (h_s : ∀ dest1 it1, it1 + state.components.source.length ≤ dest1.length →
      Completes (output_result_source sym state math_output dest1 it1) dest1 it1
        state.components.source.length)
    (h_l : ∀ dest1 it1, it1 + (citer state.components.load_gen .base).length ≤ dest1.length →
      Completes (output_result_load_gen sym .base state math_output dest1 it1) dest1 it1
        (citer state.components.load_gen .base).length)
    (h_h : ∀ dest1 it1, it1 + state.components.shunt.length ≤ dest1.length →
      Completes (output_result_shunt sym state math_output dest1 it1) dest1 it1
        state.components.shunt.length)
    (h_room : res_it + (state.components.source.length
      + (citer state.components.load_gen .base).length
      + state.components.shunt.length) ≤ dest.length) :
    Completes (output_result_appliance sym state math_output dest res_it) dest res_it
      (state.components.source.length + (citer state.components.load_gen .base).length
        + state.components.shunt.length) := by
  obtain ⟨outs_s, l_s, e_s⟩ := h_s dest res_it (by omega)
  obtain ⟨outs_l, l_l, e_l⟩ := h_l (written dest res_it outs_s)
    (res_it + state.components.source.length) (by
      rw [length_written dest res_it outs_s (by omega)]
      omega)
  obtain ⟨outs_h, l_h, e_h⟩ := h_h
    (written (written dest res_it outs_s) (res_it + state.components.source.length) outs_l)
    (res_it + state.components.source.length + (citer state.components.load_gen .base).length)
    (by
      rw [length_written _ _ outs_l (by
        rw [length_written dest res_it outs_s (by omega)]
        omega), length_written dest res_it outs_s (by omega)]
      omega)
  have e_w : written (written (written dest res_it outs_s)
        (res_it + state.components.source.length) outs_l)
        (res_it + state.components.source.length
          + (citer state.components.load_gen .base).length) outs_h
      = written dest res_it (outs_s ++ outs_l ++ outs_h) := by
    rw [← l_s, written_written dest res_it outs_s outs_l (by omega), ← l_l,
      Nat.add_assoc, ← List.length_append,
      written_written dest res_it (outs_s ++ outs_l) outs_h (by
        rw [List.length_append]
        omega)]
  refine ⟨outs_s ++ outs_l ++ outs_h, by simp only [List.length_append, l_s, l_l, l_h], ?_⟩
  unfold output_result_appliance
  rw [e_s]
  dsimp only
  rw [e_l]
  dsimp only
  rw [e_h, e_w]
  simp only [Nat.add_assoc]


/-- Counterexample to C20 as stated: the demo grid meets the whole
precondition (every coupling entry within the math output, every table and both
sensor index arrays at least as long as the component sequences, every sensor
object index within its table, all terminal types recognized), yet the node
projection into an empty destination stops at the first record, which has no
place to go. -/
theorem output_result_not_total_without_room :
    coupling_within demo.state demo.math_output = true ∧
    (demo.state.components.node.length ≤ demo.state.comp_coup.node.length ∧
      (citer demo.state.components.branch .base).length ≤ demo.state.comp_coup.branch.length ∧
      (citer demo.state.components.branch3 .base).length
        ≤ demo.state.comp_coup.branch3.length ∧
      demo.state.components.source.length ≤ demo.state.comp_coup.source.length ∧
      (citer demo.state.components.load_gen .base).length
        ≤ demo.state.comp_coup.load_gen.length ∧
      demo.state.components.shunt.length ≤ demo.state.comp_coup.shunt.length ∧
      demo.state.components.fault.length ≤ demo.state.comp_coup.fault.length ∧
      (citer demo.state.components.voltage_sensor .base).length
        ≤ demo.state.comp_topo.voltage_sensor_node_idx.length ∧
      (citer demo.state.components.power_sensor .base).length
        ≤ demo.state.comp_topo.power_sensor_object_idx.length) ∧
    VoltageSensorsWithin demo.state .base ∧
    PowerSensorsWithin demo.state .base ∧
    output_result_node true demo.state demo.math_output [] 0 = ([], .error .out_of_range) := by
  refine ⟨rfl, by decide, ?_, ?_, rfl⟩
  · intro i node_seq _ hi
    match i, hi with
    | 0, hi => cases hi; rfl
    | 1, hi => cases hi; rfl
    | (k + 2), hi => exact absurd hi (by simp [demo.state, demo.comp_topo, demo.components,
        detail.comp_sequence_offset, get_start_idx])
  · intro i power_sensor obj_seq hc hi
    match i, hc, hi with
    | 0, hc, hi => cases hc; cases hi; exact ⟨by decide, rfl⟩
    | 1, hc, hi => cases hc; cases hi; exact ⟨by decide, rfl⟩
    | 2, hc, hi => cases hc; cases hi; exact ⟨by decide, rfl⟩
    | 3, hc, hi => cases hc; cases hi; exact ⟨by decide, rfl⟩
    | 4, hc, hi => cases hc; cases hi; exact ⟨by decide, rfl⟩
    | (k + 5), hc, _ => exact absurd hc (by simp [demo.state, demo.components, citer])


/-- C20, amended: when every coupling entry with a group other than -1 has its
group within the math output and its positions within the arrays of that group
it is used to subscript, then every projection whose slice holds at least as
many entries as there are components of the projected subtype, whose sensors
(if it projects sensors) have recognized terminal types and object indices
within the tables they select, and whose destination has room for one record
per component, completes: no subscript is out of range, one record is written
for every component and the iterator is returned advanced by their number. -/
theorem output_result_total_when_well_formed {R D : Type} [Zero R] (name : String)
    (sym : Bool) (state : MainModelState R D) (math_output : List (MathOutput D sym))
    (dest : List (OutputRecord R sym)) (res_it : Nat)
    (h_coupling : coupling_within state math_output = true) :
    (state.components.node.length ≤ state.comp_coup.node.length →
      res_it + state.components.node.length ≤ dest.length →
      Completes (output_result_node sym state math_output dest res_it) dest res_it
        state.components.node.length) ∧
    (∀ sel : Sel,
      detail.comp_sequence_offset state.components.branch sel
        + (citer state.components.branch sel).length ≤ state.comp_coup.branch.length →
      res_it + (citer state.components.branch sel).length ≤ dest.length →
      Completes (output_result_branch sym sel state math_output dest res_it) dest res_it
        (citer state.components.branch sel).length) ∧
    (∀ sel : Sel,
      detail.comp_sequence_offset state.components.branch3 sel
        + (citer state.components.branch3 sel).length ≤ state.comp_coup.branch3.length →
      res_it + (citer state.components.branch3 sel).length ≤ dest.length →
      Completes (output_result_branch3 sym sel state math_output dest res_it) dest res_it
        (citer state.components.branch3 sel).length) ∧
    (state.components.source.length ≤ state.comp_coup.source.length →
      res_it + state.components.source.length ≤ dest.length →
      Completes (output_result_source sym state math_output dest res_it) dest res_it
        state.components.source.length) ∧
    (∀ sel : Sel,
      detail.comp_sequence_offset state.components.load_gen sel
        + (citer state.components.load_gen sel).length ≤ state.comp_coup.load_gen.length →
      res_it + (citer state.components.load_gen sel).length ≤ dest.length →
      Completes (output_result_load_gen sym sel state math_output dest res_it) dest res_it
        (citer state.components.load_gen sel).length) ∧
    (state.components.shunt.length ≤ state.comp_coup.shunt.length →
      res_it + state.components.shunt.length ≤ dest.length →
      Completes (output_result_shunt sym state math_output dest res_it) dest res_it
        state.components.shunt.length) ∧
    (state.components.source.length ≤ state.comp_coup.source.length →
      (citer state.components.load_gen .base).length ≤ state.comp_coup.load_gen.length →
      state.components.shunt.length ≤ state.comp_coup.shunt.length →
      res_it + (state.components.source.length
        + (citer state.components.load_gen .base).length
        + state.components.shunt.length) ≤ dest.length →
      Completes (output_result_appliance sym state math_output dest res_it) dest res_it
        (state.components.source.length + (citer state.components.load_gen .base).length
          + state.components.shunt.length)) ∧
    (∀ sel : Sel,
      detail.comp_sequence_offset state.components.voltage_sensor sel
        + (citer state.components.voltage_sensor sel).length
          ≤ state.comp_topo.voltage_sensor_node_idx.length →
      VoltageSensorsWithin state sel →
      res_it + (citer state.components.voltage_sensor sel).length ≤ dest.length →
      Completes (output_result_voltage_sensor sym sel state math_output dest res_it) dest res_it
        (citer state.components.voltage_sensor sel).length) ∧
    (∀ sel : Sel,
      detail.comp_sequence_offset state.components.power_sensor sel
        + (citer state.components.power_sensor sel).length
          ≤ state.comp_topo.power_sensor_object_idx.length →
      PowerSensorsWithin state sel →
      res_it + (citer state.components.power_sensor sel).length ≤ dest.length →
      Completes (output_result_power_sensor name sym sel state math_output dest res_it)
        dest res_it (citer state.components.power_sensor sel).length) ∧
    (∀ destf : List (OutputRecord R true),
      state.components.fault.length ≤ state.comp_coup.fault.length →
      res_it + state.components.fault.length ≤ destf.length →
      Completes (output_result_fault sym state math_output destf res_it) destf res_it
        state.components.fault.length) := by
  obtain ⟨w_node, w_branch, w_branch3, w_source, w_load_gen, w_shunt⟩ :=
    coupling_within_elim state math_output h_coupling
  have t_source : ∀ (dest1 : List (OutputRecord R sym)) (it1 : Nat),
      state.components.source.length ≤ state.comp_coup.source.length →
      it1 + state.components.source.length ≤ dest1.length →
      Completes (output_result_source sym state math_output dest1 it1) dest1 it1
        state.components.source.length := by
    intro dest1 it1 hs hr
    exact produce_output_completes_of_slice _ (detail.comp_base_sequence_cbegin_source state)
      dest1 it1 _ (by simpa [detail.comp_base_sequence_cbegin_source] using hs)
      (fun c e he => source_func_total sym math_output c e (w_source e he)) hr
  have t_load_gen : ∀ (sel : Sel) (dest1 : List (OutputRecord R sym)) (it1 : Nat),
      detail.comp_sequence_offset state.components.load_gen sel
        + (citer state.components.load_gen sel).length ≤ state.comp_coup.load_gen.length →
      it1 + (citer state.components.load_gen sel).length ≤ dest1.length →
      Completes (output_result_load_gen sym sel state math_output dest1 it1) dest1 it1
        (citer state.components.load_gen sel).length := by
    intro sel dest1 it1 hs hr
    exact produce_output_completes_of_slice _
      (detail.comp_base_sequence_cbegin_load_gen state sel) dest1 it1 _ hs
      (fun c e he => load_gen_func_total sym math_output c e (w_load_gen e he)) hr
  have t_shunt : ∀ (dest1 : List (OutputRecord R sym)) (it1 : Nat),
      state.components.shunt.length ≤ state.comp_coup.shunt.length →
      it1 + state.components.shunt.length ≤ dest1.length →
      Completes (output_result_shunt sym state math_output dest1 it1) dest1 it1
        state.components.shunt.length := by
    intro dest1 it1 hs hr
    exact produce_output_completes_of_slice _ (detail.comp_base_sequence_cbegin_shunt state)
      dest1 it1 _ (by simpa [detail.comp_base_sequence_cbegin_shunt] using hs)
      (fun c e he => shunt_func_total sym math_output c e (w_shunt e he)) hr
  refine ⟨?_, ?_, ?_, t_source dest res_it, fun sel => t_load_gen sel dest res_it,
    t_shunt dest res_it, ?_, ?_, ?_, ?_⟩
  · intro hs hr
    exact produce_output_completes_of_slice _ (detail.comp_base_sequence_cbegin_node state)
      dest res_it _ (by simpa [detail.comp_base_sequence_cbegin_node] using hs)
      (fun c e he => node_func_total sym math_output c e (w_node e he).1 (w_node e he).2) hr
  · intro sel hs hr
    exact produce_output_completes_of_slice _
      (detail.comp_base_sequence_cbegin_branch state sel) dest res_it _ hs
      (fun c e he => branch_func_total sym math_output c e (w_branch e he)) hr
  · intro sel hs hr
    exact produce_output_completes_of_slice _
      (detail.comp_base_sequence_cbegin_branch3 state sel) dest res_it _ hs
      (fun c e he => branch3_func_total sym math_output c e (w_branch3 e he).1
        (w_branch3 e he).2.1 (w_branch3 e he).2.2) hr
  · intro hs hl hh hr
    exact output_result_appliance_completes sym math_output state dest res_it
      (fun dest1 it1 h => t_source dest1 it1 hs h)
      (fun dest1 it1 h => t_load_gen .base dest1 it1
        (by simpa [detail.comp_sequence_offset, get_start_idx] using hl) h)
      (fun dest1 it1 h => t_shunt dest1 it1 hh h) hr
  · intro sel hs hw hr
    apply produce_output_completes _ (detail.comp_base_sequence_cbegin_voltage_sensor state sel)
      dest res_it _ _ hr
    intro i c hc
    have hi : i < (citer state.components.voltage_sensor sel).length :=
      (List.getElem?_eq_some.mp hc).1
    obtain ⟨node_seq, hn, _⟩ := slice_entry state.comp_topo.voltage_sensor_node_idx
      (detail.comp_sequence_offset state.components.voltage_sensor sel) _ i hs hi
    obtain ⟨v, hv⟩ := voltage_sensor_func_total sym state math_output h_coupling c node_seq
      (hw i node_seq hi hn)
    exact ⟨node_seq, v, hn, hv⟩
  · intro sel hs hw hr
    apply produce_output_completes _ (detail.comp_base_sequence_cbegin_power_sensor state sel)
      dest res_it _ _ hr
    intro i c hc
    have hi : i < (citer state.components.power_sensor sel).length :=
      (List.getElem?_eq_some.mp hc).1
    obtain ⟨obj_seq, hn, _⟩ := slice_entry state.comp_topo.power_sensor_object_idx
      (detail.comp_sequence_offset state.components.power_sensor sel) _ i hs hi
    obtain ⟨v, hv⟩ := power_sensor_func_total name sym state math_output h_coupling c obj_seq
      (hw i c obj_seq hc hn).1 (hw i c obj_seq hc hn).2
    exact ⟨obj_seq, v, hn, hv⟩
  · intro destf hs hr
    exact produce_output_completes_of_slice _ (detail.comp_base_sequence_cbegin_fault state)
      destf res_it _ (by simpa [detail.comp_base_sequence_cbegin_fault] using hs)
      (fun c e _ => ⟨c.get_output, rfl⟩) hr

/-- Witness of C20, amended: the node projection of the demo grid into a
destination of three records. -/
theorem output_result_total_when_well_formed_witness :
    Completes (output_result_node true demo.state demo.math_output
      (List.replicate 3 demo.blank) 0) (List.replicate 3 demo.blank) 0
      demo.state.components.node.length :=
  (output_result_total_when_well_formed "generic_power_sensor" true demo.state
    demo.math_output (List.replicate 3 demo.blank) 0 rfl).1 (by decide) (by decide)


/-! ## Lemmas on the two switches of the power-sensor lambda -/

theorem power_sensor_obj_math_id_unrecognized {R D : Type} (name : String)
    (state : MainModelState R D) (t : MeasuredTerminalType) (obj_seq : Int)
    (ht : t ∉ recognized_terminal_types) :
    power_sensor_obj_math_id name state t obj_seq
      = .error (.MissingCaseForEnumError (name ++ " output_result()") t) := by
  cases t <;> simp [recognized_terminal_types] at ht
  simp [power_sensor_obj_math_id]

theorem power_sensor_select_unrecognized {R D : Type} (name : String) (sym : Bool)
    (math_output : List (MathOutput D sym)) (power_sensor : GenericPowerSensor R D)
    (t : MeasuredTerminalType) (obj_math_id : Idx2D) (ht : t ∉ recognized_terminal_types) :
    power_sensor_select name sym math_output power_sensor t obj_math_id
      = .error (.MissingCaseForEnumError (name ++ " output_result()") t) := by
  cases t <;> simp [recognized_terminal_types] at ht
  simp [power_sensor_select]

theorem power_sensor_obj_math_id_ok_recognized {R D : Type} (name : String)
    (state : MainModelState R D) (t : MeasuredTerminalType) (obj_seq : Int) (e : Idx2D)
    (h : power_sensor_obj_math_id name state t obj_seq = .ok e) :
    t ∈ recognized_terminal_types := by
  by_contra ht
  rw [power_sensor_obj_math_id_unrecognized name state t obj_seq ht] at h
  simp at h

/-- C21: in the power-sensor lambda, a terminal type for which the first switch
returns a coupling entry is one of the ten recognized ones, and for it the
second switch never raises MissingCaseForEnumError, whatever the entry and the
math output are. Each switch reaches its default case exactly for the terminal
types outside the ten, so both cover the same set. When the lambda raises
MissingCaseForEnumError, the first switch raised it, and so it is for the
failing sensor of a projection that ends with this error. -/
theorem second_switch_default_unreachable {R D : Type} [Zero R] (name : String) (sym : Bool)
    (state : MainModelState R D) (math_output : List (MathOutput D sym))
    (power_sensor : GenericPowerSensor R D) (t : MeasuredTerminalType) (obj_seq : Int) :
    (∀ e, power_sensor_obj_math_id name state t obj_seq = .ok e →
      t ∈ recognized_terminal_types ∧
      ∀ (obj_math_id : Idx2D) (m : String) (v : MeasuredTerminalType),
        power_sensor_select name sym math_output power_sensor t obj_math_id
          ≠ .error (.MissingCaseForEnumError m v)) ∧
    ((∃ m v, power_sensor_obj_math_id name state t obj_seq
        = .error (.MissingCaseForEnumError m v)) ↔ t ∉ recognized_terminal_types) ∧
    (∀ obj_math_id : Idx2D,
      (∃ m v, power_sensor_select name sym math_output power_sensor t obj_math_id
        = .error (.MissingCaseForEnumError m v)) ↔ t ∉ recognized_terminal_types) ∧
    (∀ (m : String) (v : MeasuredTerminalType),
      power_sensor_func name sym state math_output power_sensor obj_seq
        = .error (.MissingCaseForEnumError m v) →
      power_sensor_obj_math_id name state power_sensor.get_terminal_type obj_seq
        = .error (.MissingCaseForEnumError m v)) ∧
    (∀ (sel : Sel) (dest : List (OutputRecord R sym)) (res_it : Nat) (m : String)
        (v : MeasuredTerminalType),
      (output_result_power_sensor name sym sel state math_output dest res_it).2
        = .error (.MissingCaseForEnumError m v) →
      ∃ (i : Nat) (failing : GenericPowerSensor R D) (seq : Int),
        (citer state.components.power_sensor sel)[i]? = some failing ∧
        state.comp_topo.power_sensor_object_idx[
          detail.comp_sequence_offset state.components.power_sensor sel + i]? = some seq ∧
        power_sensor_obj_math_id name state failing.get_terminal_type seq
          = .error (.MissingCaseForEnumError m v)) := by
  have k_func : ∀ (ps : GenericPowerSensor R D) (seq : Int) (m : String)
      (v : MeasuredTerminalType),
      power_sensor_func name sym state math_output ps seq
        = .error (.MissingCaseForEnumError m v) →
      power_sensor_obj_math_id name state ps.get_terminal_type seq
        = .error (.MissingCaseForEnumError m v) := by
    intro ps seq m v h
    obtain ⟨h1, h2, h3⟩ := power_sensor_func_missing_case name sym state math_output ps seq m v h
    rw [h1, h2]
    exact power_sensor_obj_math_id_unrecognized name state _ seq (h2 ▸ h3)
  refine ⟨?_, ⟨?_, ?_⟩, ?_, k_func power_sensor obj_seq, ?_⟩
  · intro e he
    have ht := power_sensor_obj_math_id_ok_recognized name state t obj_seq e he
    refine ⟨ht, ?_⟩
    intro obj_math_id m v h
    have := power_sensor_select_error name sym math_output power_sensor t obj_math_id _ ht h
    simp at this
  · rintro ⟨m, v, h⟩ ht
    have := power_sensor_obj_math_id_error name state t obj_seq _ ht h
    simp at this
  · intro ht
    exact ⟨_, _, power_sensor_obj_math_id_unrecognized name state t obj_seq ht⟩
  · intro obj_math_id
    constructor
    · rintro ⟨m, v, h⟩ ht
      have := power_sensor_select_error name sym math_output power_sensor t obj_math_id _ ht h
      simp at this
    · intro ht
      exact ⟨_, _, power_sensor_select_unrecognized name sym math_output power_sensor t
        obj_math_id ht⟩
  · intro sel dest res_it m v h
    obtain ⟨i, c, e, h1, h2, h3, _⟩ := transform_error
      (power_sensor_func name sym state math_output) (citer state.components.power_sensor sel)
      (detail.comp_base_sequence_cbegin_power_sensor state sel) dest res_it
      (output_result_power_sensor name sym sel state math_output dest res_it).1
      (.MissingCaseForEnumError m v) (Prod.ext rfl h) (by simp)
    exact ⟨i, c, e, h1, h2, k_func c e m v h3⟩

/-- Witness of C21: for branch_to and object 1 of the demo grid the first
switch returns the entry (0, 1), and the second switch does not raise
MissingCaseForEnumError, also not on an entry that points outside the math
output; in the demo state with the unlisted sensor the error of the
projection is the one of the first switch at sensor 19. -/
theorem second_switch_default_unreachable_witness :
    power_sensor_obj_math_id "generic_power_sensor" demo.state .branch_to 1 = .ok ⟨0, 1⟩ ∧
    power_sensor_select "generic_power_sensor" true demo.math_output
        (demo.power_sensor 15 .branch_to) .branch_to ⟨9, 9⟩ = .error .out_of_range ∧
    power_sensor_select "generic_power_sensor" true demo.math_output
        (demo.power_sensor 15 .branch_to) .branch_to ⟨9, 9⟩
      ≠ .error (.MissingCaseForEnumError "generic_power_sensor output_result()" .branch_to) ∧
    ∃ (i : Nat) (failing : GenericPowerSensor Int Int) (seq : Int),
      (citer demo.state_unlisted.components.power_sensor .base)[i]? = some failing ∧
      demo.state_unlisted.comp_topo.power_sensor_object_idx[
        detail.comp_sequence_offset demo.state_unlisted.components.power_sensor .base + i]?
          = some seq ∧
      power_sensor_obj_math_id "generic_power_sensor" demo.state_unlisted
          failing.get_terminal_type seq
        = .error (.MissingCaseForEnumError "generic_power_sensor output_result()"
            (.unlisted 42)) :=
  ⟨rfl, rfl,
    ((second_switch_default_unreachable "generic_power_sensor" true demo.state
      demo.math_output (demo.power_sensor 15 .branch_to) .branch_to 1).1 ⟨0, 1⟩ rfl).2
      ⟨9, 9⟩ _ _,
    (second_switch_default_unreachable "generic_power_sensor" true demo.state_unlisted
      demo.math_output (demo.power_sensor 15 .branch_to) .branch_to 1).2.2.2.2 .base
      (List.replicate 3 demo.blank) 0 _ _ rfl⟩


theorem transform_congr {α β γ : Type} (op : α → β → Except Err γ) (cs : List α) :
    ∀ (first2 other2 : Iter β) (dest : List γ) (res_it : Nat),
      (∀ i, i < cs.length → first2.base[first2.pos + i]? = other2.base[other2.pos + i]?) →
      detail.transform op cs first2 dest res_it = detail.transform op cs other2 dest res_it := by
  induction cs with
  | nil => intro first2 other2 dest res_it _; simp [detail.transform]
  | cons c cs ih =>
    intro first2 other2 dest res_it h
    have h0 := h 0 (by simp)
    simp only [Nat.add_zero] at h0
    have hrest : ∀ (d : List γ) (r : Nat),
        detail.transform op cs ⟨first2.base, first2.pos + 1⟩ d r
          = detail.transform op cs ⟨other2.base, other2.pos + 1⟩ d r := by
      intro d r
      apply ih
      intro i hi
      have := h (i + 1) (by simp; omega)
      simpa [Nat.add_assoc, Nat.add_comm 1] using this
    simp only [detail.transform, h0, hrest]

/-- C22: the projection of a subtype with n instances and offset k reads no
entry of its category's table but those at the indices k to k + n - 1. For two
states that store the same components of the subtype, both with offset k, and
whose tables agree at these n indices, whatever the tables hold elsewhere and
however long they are, the Node, Branch, Branch3, Source, GenericLoadGen and
Shunt projection give the same run for the same math output: the same
destination buffer and the same returned iterator or failure. For Node, Source
and Shunt the offset is 0. -/
theorem projection_reads_only_own_slice {R D : Type} [Zero R] (sym : Bool)
    (math_output : List (MathOutput D sym)) (state1 state2 : MainModelState R D)
    (dest : List (OutputRecord R sym)) (res_it : Nat) :
    (state1.components.node = state2.components.node →
      (∀ i, i < state1.components.node.length →
        state1.comp_coup.node[i]? = state2.comp_coup.node[i]?) →
      output_result_node sym state1 math_output dest res_it
        = output_result_node sym state2 math_output dest res_it) ∧
    (∀ (sel : Sel) (k : Nat),
      citer state1.components.branch sel = citer state2.components.branch sel →
      detail.comp_sequence_offset state1.components.branch sel = k →
      detail.comp_sequence_offset state2.components.branch sel = k →
      (∀ i, i < (citer state1.components.branch sel).length →
        state1.comp_coup.branch[k + i]? = state2.comp_coup.branch[k + i]?) →
      output_result_branch sym sel state1 math_output dest res_it
        = output_result_branch sym sel state2 math_output dest res_it) ∧
    (∀ (sel : Sel) (k : Nat),
      citer state1.components.branch3 sel = citer state2.components.branch3 sel →
      detail.comp_sequence_offset state1.components.branch3 sel = k →
      detail.comp_sequence_offset state2.components.branch3 sel = k →
      (∀ i, i < (citer state1.components.branch3 sel).length →
        state1.comp_coup.branch3[k + i]? = state2.comp_coup.branch3[k + i]?) →
      output_result_branch3 sym sel state1 math_output dest res_it
        = output_result_branch3 sym sel state2 math_output dest res_it) ∧
    (state1.components.source = state2.components.source →
      (∀ i, i < state1.components.source.length →
        state1.comp_coup.source[i]? = state2.comp_coup.source[i]?) →
      output_result_source sym state1 math_output dest res_it
        = output_result_source sym state2 math_output dest res_it) ∧
    (∀ (sel : Sel) (k : Nat),
      citer state1.components.load_gen sel = citer state2.components.load_gen sel →
      detail.comp_sequence_offset state1.components.load_gen sel = k →
      detail.comp_sequence_offset state2.components.load_gen sel = k →
      (∀ i, i < (citer state1.components.load_gen sel).length →
        state1.comp_coup.load_gen[k + i]? = state2.comp_coup.load_gen[k + i]?) →
      output_result_load_gen sym sel state1 math_output dest res_it
        = output_result_load_gen sym sel state2 math_output dest res_it) ∧
    (state1.components.shunt = state2.components.shunt →
      (∀ i, i < state1.components.shunt.length →
        state1.comp_coup.shunt[i]? = state2.comp_coup.shunt[i]?) →
      output_result_shunt sym state1 math_output dest res_it
        = output_result_shunt sym state2 math_output dest res_it) := by
  refine ⟨?_, ?_, ?_, ?_, ?_, ?_⟩
  · intro hc he
    unfold output_result_node detail.produce_output
    rw [← hc]
    apply transform_congr
    intro i hi
    simp only [detail.comp_base_sequence_cbegin_node, Nat.zero_add]
    exact he i hi
  · intro sel k hc h1 h2 he
    unfold output_result_branch detail.produce_output
    rw [← hc]
    apply transform_congr
    intro i hi
    simp only [detail.comp_base_sequence_cbegin_branch, h1, h2]
    exact he i hi
  · intro sel k hc h1 h2 he
    unfold output_result_branch3 detail.produce_output
    rw [← hc]
    apply transform_congr
    intro i hi
    simp only [detail.comp_base_sequence_cbegin_branch3, h1, h2]
    exact he i hi
  · intro hc he
    unfold output_result_source detail.produce_output
    rw [← hc]
    apply transform_congr
    intro i hi
    simp only [detail.comp_base_sequence_cbegin_source, Nat.zero_add]
    exact he i hi
  · intro sel k hc h1 h2 he
    unfold output_result_load_gen detail.produce_output
    rw [← hc]
    apply transform_congr
    intro i hi
    simp only [detail.comp_base_sequence_cbegin_load_gen, h1, h2]
    exact he i hi
  · intro hc he
    unfold output_result_shunt detail.produce_output
    rw [← hc]
    apply transform_congr
    intro i hi
    simp only [detail.comp_base_sequence_cbegin_shunt, Nat.zero_add]
    exact he i hi

/-- Witness of C22: the links of the demo grid (offset 1, two instances) in
the demo state and in the state with the other branch table, which differs at
index 0 and has an entry more at index 3. -/
theorem projection_reads_only_own_slice_witness :
    demo.state.comp_coup.branch[0]? ≠ demo.state_other.comp_coup.branch[0]? ∧
    demo.state.comp_coup.branch[3]? ≠ demo.state_other.comp_coup.branch[3]? ∧
    output_result_branch true (.sub 1) demo.state demo.math_output [demo.blank, demo.blank] 0
      = output_result_branch true (.sub 1) demo.state_other demo.math_output
          [demo.blank, demo.blank] 0 ∧
    output_result_branch true (.sub 1) demo.state_other demo.math_output
        [demo.blank, demo.blank] 0
      = ([demo.record 5 true [11, -11], demo.record 6 false [0, 0]], .ok 2) :=
  ⟨by decide, by decide,
    (projection_reads_only_own_slice true demo.math_output demo.state demo.state_other
      [demo.blank, demo.blank] 0).2.1 (.sub 1) 1 rfl rfl rfl
      (by
        intro i hi
        match i, hi with
        | 0, _ => rfl
        | 1, _ => rfl
        | (j + 2), hi => exact absurd hi (by simp [demo.state, demo.components, citer])),
    rfl⟩

end power_grid_model
